import Mathlib

/-!
Verification development for the frontend-agent hybrid testing system.

The repository contains a TypeScript test orchestrator
(src/orchestrator/index.ts, with the HTTP server in index.ts and backends in
src/services) together with a compiled JavaScript copy of each module.  The
two copies of the orchestrator and of the server differ in behaviour, so both
are embedded here side by side:

* the TypeScript source copy of the orchestrator (runTestSrc, ...) and
* the compiled copy (runStepsJs, runTestBodyJs, finallySys, processQueueJsF,
  ...), whose runTest performs the full finally phase and recursively drains
  the queue.

JavaScript numbers are modelled as rationals, JS strings as Lean strings, and
dynamic JSON values by the JVal inductive.  Calls into the browser-automation
and visual-analysis backends are modelled by behaviour records: each backend
call either returns a value or throws, as the source functions can; the
behaviour is indexed by the position of the call so that two calls with the
same argument may answer differently.  Date.now() is modelled by a clock
threaded through the TypeScript copy and by behaviour-supplied start/elapsed
values for the compiled copy (which only reads the clock at run start and in
the finally block).
-/

namespace FrontendAgent

/-! ## Data model (src/types/index.ts) -/

/-- AutomationStep: one atomic action; target/value/timeout are optional in the
TypeScript interface. -/
structure AutomationStep where
  action : String
  target : Option String
  value : Option String
  timeout : Option ℚ
deriving DecidableEq, Repr

/-- The three assertion toggles of a Test's automation section. -/
structure Assertions where
  visual : Bool
  functional : Bool
  performance : Bool
deriving DecidableEq, Repr

/-- A Test's automation section. -/
structure AutomationSpec where
  steps : List AutomationStep
  assertions : Assertions
deriving DecidableEq, Repr

/-- The free-text expectation lists of a Test's visual section. -/
structure Expectations where
  layout : List String
  design : List String
  accessibility : List String
deriving DecidableEq, Repr

/-- Baseline screenshot reference of a Test's visual section. -/
structure BaselineScreenshots where
  baseline : String
  tolerance : ℚ
deriving DecidableEq, Repr

/-- A Test's visual section. -/
structure VisualSpec where
  instructions : String
  expectations : Expectations
  screenshots : BaselineScreenshots
deriving DecidableEq, Repr

/-- A Test's target; baseUrl is optional. -/
structure TargetSpec where
  url : String
  baseUrl : Option String
deriving DecidableEq, Repr

/-- Test: an immutable job specification (interface Test). -/
structure Test where
  id : String
  name : String
  description : String
  target : TargetSpec
  visual : VisualSpec
  automation : AutomationSpec
deriving DecidableEq, Repr

/-- Pixel coordinates of a VisualIssue location. -/
structure Coordinates where
  x : ℚ
  y : ℚ
deriving DecidableEq, Repr

/-- Location of a VisualIssue. -/
structure IssueLocation where
  selector : String
  screenshot : String
  coordinates : Coordinates
deriving DecidableEq, Repr

/-- VisualIssue: a severity-tagged finding. -/
structure VisualIssue where
  severity : String
  description : String
  location : IssueLocation
  recommendation : String
deriving DecidableEq, Repr

/-- The three 0-100 quality scores of a visual analysis. -/
structure VisualMetrics where
  accessibility : ℚ
  designConsistency : ℚ
  layoutAccuracy : ℚ
deriving DecidableEq, Repr

/-- The visualAnalysis section of a TestResult. -/
structure VisualAnalysisResult where
  observations : List String
  issues : List VisualIssue
  metrics : VisualMetrics
deriving DecidableEq, Repr

/-- StepResult: outcome of one AutomationStep; error is optional. -/
structure StepResult where
  status : String
  action : String
  duration : ℚ
  error : Option String
deriving DecidableEq, Repr

/-- The fcp/lcp/cls group of PerformanceMetrics. -/
structure PerfGroup where
  fcp : ℚ
  lcp : ℚ
  cls : ℚ
deriving DecidableEq, Repr

/-- The console log group of PerformanceMetrics. -/
structure ConsoleLogs where
  errors : List String
  warnings : List String
deriving DecidableEq, Repr

/-- The dns/tcp/ttfb timing triple of the network group. -/
structure NetTiming where
  dns : ℚ
  tcp : ℚ
  ttfb : ℚ
deriving DecidableEq, Repr

/-- The network group of PerformanceMetrics. -/
structure NetworkMetrics where
  requests : ℚ
  failures : ℚ
  timing : NetTiming
deriving DecidableEq, Repr

/-- PerformanceMetrics: the bundle collected by collectMetrics. -/
structure PerformanceMetrics where
  performance : PerfGroup
  console : ConsoleLogs
  network : NetworkMetrics
deriving DecidableEq, Repr

/-- The automationResults section of a TestResult. -/
structure AutomationResults where
  steps : List StepResult
  metrics : PerformanceMetrics
deriving DecidableEq, Repr

/-- TestResult: the terminal record for one execution.  status is a JS string
(the compiled copy initialises it to "running", a value outside the TypeScript
union, so it is modelled as String). -/
structure TestResult where
  id : String
  testId : String
  timestamp : ℚ
  duration : ℚ
  status : String
  visualAnalysis : VisualAnalysisResult
  automationResults : AutomationResults
deriving DecidableEq, Repr

/-- Viewport metadata of a Screenshot. -/
structure ViewportMeta where
  width : ℚ
  height : ℚ
deriving DecidableEq, Repr

/-- Metadata of a Screenshot. -/
structure ScreenshotMeta where
  viewport : ViewportMeta
  browser : String
deriving DecidableEq, Repr

/-- Screenshot: identity, owner, payload, timestamp and metadata. -/
structure Screenshot where
  id : String
  testId : String
  data : String
  timestamp : ℚ
  metadata : ScreenshotMeta
deriving DecidableEq, Repr

/-- One run entry of a TestHistory record. -/
structure HistoryRun where
  timestamp : ℚ
  result : TestResult
deriving DecidableEq, Repr

/-- TestHistory: all runs of one test. -/
structure TestHistory where
  testId : String
  runs : List HistoryRun
deriving DecidableEq, Repr

/-- One entry of the commonIssues mapping of TestAnalytics. -/
structure IssueCount where
  type : String
  count : ℚ
deriving DecidableEq, Repr

/-- TestAnalytics: the rolling aggregate. -/
structure TestAnalytics where
  totalRuns : ℚ
  passRate : ℚ
  averageDuration : ℚ
  commonIssues : List IssueCount
deriving DecidableEq, Repr

/-- The four work lists of the test runner. -/
structure QueueLists where
  pending : List Test
  running : List Test
  completed : List Test
  failed : List Test
deriving DecidableEq, Repr

/-- Concurrency configuration (declared but not enforced by the scheduler). -/
structure Concurrency where
  maxParallel : ℚ
  perBrowser : ℚ
deriving DecidableEq, Repr

/-- The three phase timeouts of the execution configuration. -/
structure Timeouts where
  visual : ℚ
  automation : ℚ
  total : ℚ
deriving DecidableEq, Repr

/-- The retry policy of the execution configuration (declared, unused). -/
structure Retries where
  count : ℚ
  backoff : String
deriving DecidableEq, Repr

/-- Execution configuration. -/
structure ExecutionConfig where
  timeouts : Timeouts
  retries : Retries
deriving DecidableEq, Repr

/-- The testRunner component of the orchestrator state. -/
structure TestRunner where
  queue : QueueLists
  concurrency : Concurrency
  execution : ExecutionConfig
deriving DecidableEq, Repr

/-- The current-phase pointer of the orchestrator state. -/
structure CurrentState where
  phase : String
  test : Option Test
  screenshots : List Screenshot
  results : List TestResult
deriving DecidableEq, Repr

/-- Long-lived history of the orchestrator state. -/
structure HistoryState where
  tests : List TestHistory
  analytics : TestAnalytics
deriving DecidableEq, Repr

/-- The state component of the orchestrator. -/
structure OrchestratorState where
  current : CurrentState
  history : HistoryState
deriving DecidableEq, Repr

/-- The orchestrator aggregate. -/
structure Orchestrator where
  testRunner : TestRunner
  state : OrchestratorState
deriving DecidableEq, Repr

/-- TestingSystem: the root aggregate held (and persisted wholesale) by the
TestOrchestrator class. -/
structure TestingSystem where
  orchestrator : Orchestrator
deriving DecidableEq, Repr

/-! ## Shared orchestrator pieces

createInitialSystem, updateAnalytics, addScreenshot and the dequeue step of
processQueue read the same in the TypeScript source copy
(src/orchestrator/index.ts) and in the compiled copy; they are defined once.
-/

/-- The zeroed PerformanceMetrics literal both copies of runTest initialise
automationResults.metrics with. -/
def zeroMetrics : PerformanceMetrics :=
  { performance := { fcp := 0, lcp := 0, cls := 0 },
    console := { errors := [], warnings := [] },
    network := { requests := 0, failures := 0, timing := { dns := 0, tcp := 0, ttfb := 0 } } }

/-- The placeholder visualAnalysis value: the TypeScript runTest initialises
the result with it, and visual.js analyzeScreenshot returns the identical
literal. -/
def placeholderVA : VisualAnalysisResult :=
  { observations :=
      ["Placeholder observation: Layout appears to follow design guidelines",
       "Placeholder observation: Text contrast meets WCAG standards"],
    issues := [],
    metrics := { accessibility := 90, designConsistency := 85, layoutAccuracy := 95 } }

/-- The zeroed visualAnalysis value the compiled runTest initialises the
result with. -/
def zeroVA : VisualAnalysisResult :=
  { observations := [], issues := [],
    metrics := { accessibility := 0, designConsistency := 0, layoutAccuracy := 0 } }

/-- createInitialSystem (identical in both copies). -/
def createInitialSystem : TestingSystem :=
  { orchestrator :=
      { testRunner :=
          { queue := { pending := [], running := [], completed := [], failed := [] },
            concurrency := { maxParallel := 1, perBrowser := 1 },
            execution :=
              { timeouts := { visual := 30000, automation := 60000, total := 300000 },
                retries := { count := 3, backoff := "exponential" } } },
        state :=
          { current := { phase := "setup", test := none, screenshots := [], results := [] },
            history :=
              { tests := [],
                analytics :=
                  { totalRuns := 0, passRate := 0, averageDuration := 0, commonIssues := [] } } } } }

/-- Projection helpers (abbreviations for the deeply nested record paths). -/
def pendingOf (s : TestingSystem) : List Test := s.orchestrator.testRunner.queue.pending

def runningOf (s : TestingSystem) : List Test := s.orchestrator.testRunner.queue.running

def completedOf (s : TestingSystem) : List Test := s.orchestrator.testRunner.queue.completed

def failedOf (s : TestingSystem) : List Test := s.orchestrator.testRunner.queue.failed

def phaseOf (s : TestingSystem) : String := s.orchestrator.state.current.phase

def currentTestOf (s : TestingSystem) : Option Test := s.orchestrator.state.current.test

def screenshotsOf (s : TestingSystem) : List Screenshot := s.orchestrator.state.current.screenshots

def resultsOf (s : TestingSystem) : List TestResult := s.orchestrator.state.current.results

def historyOf (s : TestingSystem) : HistoryState := s.orchestrator.state.history

def analyticsOf (s : TestingSystem) : TestAnalytics := s.orchestrator.state.history.analytics

/-- The ids of every test in any of the four queue lists, in list order. -/
def allIds (s : TestingSystem) : List String :=
  (pendingOf s ++ runningOf s ++ completedOf s ++ failedOf s).map (·.id)

/-- The commonIssues update for one issue description: find the entry whose
type equals the description and increment its count in place, else push a new
entry with count 1 (the find / count++ / push body of updateAnalytics). -/
def bumpIssue : List IssueCount → String → List IssueCount
  | [], d => [{ type := d, count := 1 }]
  | i :: rest, d =>
      if i.type = d then { type := i.type, count := i.count + 1 } :: rest
      else i :: bumpIssue rest d

/-- updateAnalytics (textually identical in the source and compiled copies):
increments totalRuns, recomputes passRate from the completed-queue length and
the new totalRuns, recomputes averageDuration over the in-session results
list, and folds the result's issues into commonIssues. -/
def updateAnalytics (sys : TestingSystem) (result : TestResult) : TestingSystem :=
  let analytics := sys.orchestrator.state.history.analytics
  let totalRuns := analytics.totalRuns + 1
  let totalPassed : ℚ := (sys.orchestrator.testRunner.queue.completed.length : ℚ)
  let passRate := totalPassed / totalRuns * 100
  let totalDuration := sys.orchestrator.state.current.results.foldl (fun sum r => sum + r.duration) 0
  let averageDuration := totalDuration / totalRuns
  let commonIssues :=
    if result.visualAnalysis.issues.length > 0 then
      result.visualAnalysis.issues.foldl (fun acc iss => bumpIssue acc iss.description)
        analytics.commonIssues
    else analytics.commonIssues
  { sys with orchestrator.state.history.analytics :=
      { totalRuns := totalRuns, passRate := passRate,
        averageDuration := averageDuration, commonIssues := commonIssues } }

/-- A World pairs the in-memory system with the log of snapshots written by
saveState: the state file always holds the last element, and every element is
one observable on-disk snapshot. -/
structure World where
  sys : TestingSystem
  saved : List TestingSystem
deriving DecidableEq, Repr

/-- saveState: write the whole current snapshot (JSON.stringify of the system)
to the state file; modelled as appending the snapshot to the save log. -/
def saveState (w : World) : World := { sys := w.sys, saved := w.saved ++ [w.sys] }

/-- addScreenshot (identical in both copies): push onto
state.current.screenshots, then saveState. -/
def addScreenshot (w : World) (s : Screenshot) : World :=
  saveState
    { w with sys :=
        { w.sys with orchestrator.state.current.screenshots :=
            w.sys.orchestrator.state.current.screenshots ++ [s] } }

/-- The state mutation processQueue performs when the phase guard passes and
pending = t :: rest (identical in both copies): shift the head off pending,
set phase to "running" and the current test to t, and push t onto running. -/
def startRunSys (sys : TestingSystem) (t : Test) (rest : List Test) : TestingSystem :=
  { sys with
      orchestrator.testRunner.queue.pending := rest,
      orchestrator.state.current.phase := "running",
      orchestrator.state.current.test := some t,
      orchestrator.testRunner.queue.running := sys.orchestrator.testRunner.queue.running ++ [t] }

/-! ## The TypeScript source copy of runTest (src/orchestrator/index.ts)

Backend calls are modelled by a behaviour record: executeStep of
src/services/automation.ts either returns (ok) or throws with a message (its
preconditions and every playwright failure throw), and collectMetrics either
returns a metrics bundle (it catches internal failures and returns defaults)
or throws (its browser-not-initialized guard sits before its try block).  Each
call also consumes some amount dt of clock time.  The behaviour is indexed by
the step position so two calls on equal steps may answer differently. -/

structure BehaviorSrc where
  execStep : ℕ → AutomationStep → String → ℚ × Except String Unit
  collectMetrics : String → ℚ × Except String PerformanceMetrics

/-- The step loop of the TypeScript runTest: for each step call executeStep;
on success push a pass StepResult (duration = elapsed clock), on a throw push
a fail StepResult carrying the error text and rethrow "Step failed: ...".
Returns the accumulated StepResults, the clock, and the thrown message (none
when every step passed). -/
def runStepsSrc (b : BehaviorSrc) (url : String) :
    List AutomationStep → ℕ → ℚ → List StepResult → List StepResult × ℚ × Option String
  | [], _, now, acc => (acc, now, none)
  | step :: rest, i, now, acc =>
      let r := b.execStep i step url
      match r.2 with
      | .ok _ =>
          runStepsSrc b url rest (i + 1) (now + r.1)
            (acc ++ [{ status := "pass", action := step.action, duration := r.1, error := none }])
      | .error e =>
          (acc ++ [{ status := "fail", action := step.action, duration := r.1, error := some e }],
           now + r.1, some ("Step failed: " ++ e))

/-- runTest of the TypeScript source copy: initialises the result with status
"error" and the placeholder visualAnalysis, executes the steps, collects
metrics when the performance assertion is set (a throw there is caught by the
run-level catch, which sets status "fail"), sets status "pass" at the end of
the try block, and in its finally block only computes the duration and calls
updateAnalytics — it performs no queue movement, no phase reset, no
persistence and no re-dequeue.  Returns (result, updated system, clock). -/
def runTestSrc (b : BehaviorSrc) (t : Test) (now0 : ℚ) (rid : String)
    (sys : TestingSystem) : TestResult × TestingSystem × ℚ :=
  let r0 : TestResult :=
    { id := rid, testId := t.id, timestamp := now0, duration := 0, status := "error",
      visualAnalysis := placeholderVA,
      automationResults := { steps := [], metrics := zeroMetrics } }
  let loop := runStepsSrc b t.target.url t.automation.steps 0 now0 []
  let stage :=
    match loop.2.2 with
    | some _ =>
        ({ r0 with automationResults.steps := loop.1, status := "fail" }, loop.2.1)
    | none =>
        if t.automation.assertions.performance then
          let m := b.collectMetrics t.target.url
          match m.2 with
          | .ok metrics =>
              ({ r0 with
                 status := "pass",
                 automationResults := { steps := loop.1, metrics := metrics } },
               loop.2.1 + m.1)
          | .error _ =>
              ({ r0 with automationResults.steps := loop.1, status := "fail" },
               loop.2.1 + m.1)
        else ({ r0 with automationResults.steps := loop.1, status := "pass" }, loop.2.1)
  let result := { stage.1 with duration := stage.2 - now0 }
  (result, updateAnalytics sys result, stage.2)

/-! ## The compiled copy of the orchestrator (dist orchestrator/index.js)

In the compiled copy executeStep of automation.js catches step failures
internally and returns a StepResult (it only throws when the browser is not
initialised), captureScreenshot and collectMetrics throw when the browser is
not initialised or on any page failure, saveScreenshot of visual.js can throw
on a filesystem failure, and analyzeScreenshot of visual.js is the pure
placeholder function.  The compiled runTest reads Date.now() only at run
start and in the finally block, so the behaviour supplies the start time and
the elapsed duration directly. -/

structure BehaviorJs where
  startTime : ℚ
  elapsed : ℚ
  execStep : ℕ → AutomationStep → Except String StepResult
  captureScreenshot : ℕ → String → Option String → Except String String
  saveScreenshot : ℕ → String → String → Except String String
  collectMetrics : String → Except String PerformanceMetrics

/-- analyzeScreenshot of src/services/visual.js: the placeholder
implementation ignores its arguments and returns the fixed literal. -/
def analyzeScreenshot (_screenshotPath : String) (_instructions : String)
    (_expectations : Expectations) : VisualAnalysisResult :=
  placeholderVA

/-- The step loop of the compiled runTest: executeStep returns a StepResult
which is pushed; a "fail" status rethrows "Step failed: <error>" (a missing
error field interpolates as "undefined"); otherwise, when the visual
assertion is set (test.visual is always truthy for a well-formed Test), a
screenshot is captured and stored and analyzeScreenshot replaces the
visualAnalysis value.  Returns (step results, visualAnalysis, thrown). -/
def runStepsJs (b : BehaviorJs) (t : Test) :
    List AutomationStep → ℕ → List StepResult → VisualAnalysisResult →
    List StepResult × VisualAnalysisResult × Option String
  | [], _, acc, va => (acc, va, none)
  | step :: rest, i, acc, va =>
      match b.execStep i step with
      | .error e => (acc, va, some e)
      | .ok sr =>
          let acc2 := acc ++ [sr]
          if sr.status = "fail" then
            (acc2, va, some ("Step failed: " ++ sr.error.getD "undefined"))
          else if t.automation.assertions.visual then
            match b.captureScreenshot i "http://example.com" step.target with
            | .error e => (acc2, va, some e)
            | .ok shot =>
                match b.saveScreenshot i shot t.id with
                | .error e => (acc2, va, some e)
                | .ok path =>
                    runStepsJs b t rest (i + 1) acc2
                      (analyzeScreenshot path t.visual.instructions t.visual.expectations)
          else runStepsJs b t rest (i + 1) acc2 va

/-- The try block of the compiled runTest after the step loop: collect one
metrics bundle when the performance assertion is set (a throw there is caught
by the run-level catch), then status "pass"; any thrown error gives status
"fail".  Returns (steps, visualAnalysis, metrics, status). -/
def bodyFinishJs (b : BehaviorJs) (t : Test)
    (loop : List StepResult × VisualAnalysisResult × Option String) :
    List StepResult × VisualAnalysisResult × PerformanceMetrics × String :=
  match loop.2.2 with
  | some _ => (loop.1, loop.2.1, zeroMetrics, "fail")
  | none =>
      if t.automation.assertions.performance then
        match b.collectMetrics "http://example.com" with
        | .ok m => (loop.1, loop.2.1, m, "pass")
        | .error _ => (loop.1, loop.2.1, zeroMetrics, "fail")
      else (loop.1, loop.2.1, zeroMetrics, "pass")

/-- The (steps, visualAnalysis, metrics, status) a compiled-copy run of t
produces; independent of the result id and of the clock. -/
def bodyOutcomeJs (b : BehaviorJs) (t : Test) :
    List StepResult × VisualAnalysisResult × PerformanceMetrics × String :=
  bodyFinishJs b t (runStepsJs b t t.automation.steps 0 [] zeroVA)

/-- The try/catch part of the compiled runTest: the result as it stands when
the finally block begins (duration not yet set).  The result is initialised
with status "running" and zeroed visualAnalysis and metrics. -/
def runTestBodyJs (b : BehaviorJs) (t : Test) (rid : String) : TestResult :=
  let out := bodyOutcomeJs b t
  { id := rid, testId := t.id, timestamp := b.startTime, duration := 0,
    status := out.2.2.2, visualAnalysis := out.2.1,
    automationResults := { steps := out.1, metrics := out.2.2.1 } }

/-- Whether a compiled-copy run of t under behaviour b ends with status
"pass". -/
def passesJs (b : BehaviorJs) (t : Test) : Bool :=
  (bodyOutcomeJs b t).2.2.2 = "pass"

/-- The finished TestResult of one compiled-copy run: the body result with
its duration set in the finally block. -/
def resultForJs (b : BehaviorJs) (t : Test) (rid : String) : TestResult :=
  { runTestBodyJs b t rid with duration := b.elapsed }

/-- findIndex by id followed by splice(index, 1): remove the first test with
the given id, if any. -/
def removeFirstById : List Test → String → List Test
  | [], _ => []
  | t :: rest, i => if t.id = i then rest else t :: removeFirstById rest i

/-- The state mutation of the compiled runTest's finally block (before its
saveState and processQueue calls): push the result onto the session results,
remove the test from running, move it to completed or failed by status,
update analytics, and reset phase and current test. -/
def finallySys (sys : TestingSystem) (t : Test) (r : TestResult) : TestingSystem :=
  let sys1 :=
    { sys with orchestrator.state.current.results :=
        sys.orchestrator.state.current.results ++ [r] }
  let sys2 :=
    { sys1 with orchestrator.testRunner.queue.running :=
        removeFirstById sys1.orchestrator.testRunner.queue.running t.id }
  let sys3 :=
    if r.status = "pass" then
      { sys2 with orchestrator.testRunner.queue.completed :=
          sys2.orchestrator.testRunner.queue.completed ++ [t] }
    else
      { sys2 with orchestrator.testRunner.queue.failed :=
          sys2.orchestrator.testRunner.queue.failed ++ [t] }
  let sys4 := updateAnalytics sys3 r
  { sys4 with
    orchestrator.state.current.phase := "setup",
    orchestrator.state.current.test := none }

/-- One complete compiled-copy run of t without the trailing processQueue
call: the try/catch body followed by the finally block's state mutation and
saveState.  Result ids come from the stream ids at index k. -/
def runOneJs (b : Test → BehaviorJs) (ids : ℕ → String) (k : ℕ) (t : Test)
    (w : World) : World :=
  saveState { w with sys := finallySys w.sys t (resultForJs (b t) t (ids k)) }

/-- processQueue of the compiled copy, with the mutual recursion through
runTest unrolled into a loop (runTest's finally block tail-calls processQueue
and adds nothing to pending, so the backlog strictly shrinks): if the phase
is not "setup" or nothing is pending, return; otherwise shift the head, move
it to running with phase "running", save, run it (body + finally + save) and
continue with the next pending test.  Structural fuel bounds the recursion;
any fuel of at least pending.length is enough.  Also returns the next result
id index and the log of tests started, in order. -/
def processQueueJsF (b : Test → BehaviorJs) (ids : ℕ → String) :
    ℕ → ℕ → World → World × ℕ × List Test
  | 0, k, w => (w, k, [])
  | fuel + 1, k, w =>
      if phaseOf w.sys ≠ "setup" then (w, k, [])
      else
        match pendingOf w.sys with
        | [] => (w, k, [])
        | t :: rest =>
            let w1 := saveState { w with sys := startRunSys w.sys t rest }
            let w2 := runOneJs b ids k t w1
            let next := processQueueJsF b ids fuel (k + 1) w2
            (next.1, next.2.1, t :: next.2.2)

/-- processQueue of the compiled copy with its fuel instantiated to the
pending backlog length (always sufficient). -/
def processQueueJs (b : Test → BehaviorJs) (ids : ℕ → String) (k : ℕ) (w : World) :
    World × ℕ × List Test :=
  processQueueJsF b ids (pendingOf w.sys).length k w

/-- runTest of the compiled copy: the try/catch body, the finally block
(duration, results push, queue moves, analytics, phase reset, saveState) and
the finally block's trailing processQueue call, which drains the remaining
backlog. -/
def runTestJs (b : Test → BehaviorJs) (ids : ℕ → String) (k : ℕ) (t : Test)
    (w : World) : World × ℕ × List Test :=
  let w2 := runOneJs b ids k t w
  processQueueJs b ids (k + 1) w2

/-- The state mutation of queueTest: push the test onto pending. -/
def pushPendingSys (sys : TestingSystem) (t : Test) : TestingSystem :=
  { sys with orchestrator.testRunner.queue.pending :=
      sys.orchestrator.testRunner.queue.pending ++ [t] }

/-- queueTest of the compiled copy: push onto pending, saveState, then
processQueue. -/
def queueTestJs (b : Test → BehaviorJs) (ids : ℕ → String) (k : ℕ) (t : Test)
    (w : World) : World × ℕ × List Test :=
  processQueueJs b ids k (saveState { w with sys := pushPendingSys w.sys t })

/-- A sequence of queueTest calls against the compiled copy, in order; each
call returns before the next is made (the model is synchronous, as the server
awaits queueTest).  Returns the final world, the next id index, and the
concatenated log of tests started. -/
def driveAllJs (b : Test → BehaviorJs) (ids : ℕ → String) :
    List Test → ℕ → World → World × ℕ × List Test
  | [], k, w => (w, k, [])
  | t :: ts, k, w =>
      let s1 := queueTestJs b ids k t w
      let s2 := driveAllJs b ids ts s1.2.1 s1.1
      (s2.1, s2.2.1, s1.2.2 ++ s2.2.2)

/-- The world of a freshly initialised orchestrator with no state file: the
initial system, persisted once by loadState's fallback. -/
def initWorld : World := saveState { sys := createInitialSystem, saved := [] }

/-! ## JSON values and the state-store round trip

saveState writes JSON.stringify(this.system) to the state file and loadState
assigns JSON.parse of the file contents back to this.system.  JSON texts are
modelled by the JVal tree (stringify/parse between a tree and its text is
exact; JSON numbers carry the exact decimal the double prints as, modelled by
ℚ).  encSystem is the stringify image of a snapshot, field for field in the
insertion order of the source's object literals, with undefined-valued
optional fields omitted as stringify omits them; decSystem reads such a tree
back as a typed snapshot, as loadState's assignment does for a tree of the
stored shape. -/

inductive JVal where
  | null : JVal
  | bool : Bool → JVal
  | num : ℚ → JVal
  | str : String → JVal
  | arr : List JVal → JVal
  | obj : List (String × JVal) → JVal

/-- Decode each element of a JSON array. -/
def decJList {α : Type} (dec : JVal → Option α) : List JVal → Option (List α)
  | [] => some []
  | j :: js =>
      match dec j with
      | none => none
      | some a =>
          match decJList dec js with
          | none => none
          | some rest => some (a :: rest)

theorem decJList_enc {α : Type} (enc : α → JVal) (dec : JVal → Option α)
    (h : ∀ a, dec (enc a) = some a) : ∀ l : List α, decJList dec (l.map enc) = some l := by
  intro l
  induction l with
  | nil => rfl
  | cons a rest ih => simp [decJList, h, ih]

/-- Decode a JSON string. -/
def decStr : JVal → Option String
  | .str s => some s
  | _ => none

theorem decStr_enc (s : String) : decStr (.str s) = some s := rfl

def encTarget (t : TargetSpec) : JVal :=
  .obj (("url", .str t.url) ::
    (match t.baseUrl with | none => [] | some b => [("baseUrl", .str b)]))

def decTarget : JVal → Option TargetSpec
  | .obj [("url", .str u)] => some { url := u, baseUrl := none }
  | .obj [("url", .str u), ("baseUrl", .str b)] => some { url := u, baseUrl := some b }
  | _ => none

theorem decTarget_enc (t : TargetSpec) : decTarget (encTarget t) = some t := by
  cases t with | mk u b => cases b <;> rfl

def encStep (s : AutomationStep) : JVal :=
  .obj (("action", .str s.action) ::
    ((match s.target with | none => [] | some v => [("target", .str v)]) ++
     (match s.value with | none => [] | some v => [("value", .str v)]) ++
     (match s.timeout with | none => [] | some q => [("timeout", .num q)])))

/-- Take the leading field when it carries the expected key and a string. -/
def takeOptStr (k : String) : List (String × JVal) → Option String × List (String × JVal)
  | (k2, .str s) :: rest => if k2 = k then (some s, rest) else (none, (k2, .str s) :: rest)
  | l => (none, l)

/-- Take the leading field when it carries the expected key and a number. -/
def takeOptNum (k : String) : List (String × JVal) → Option ℚ × List (String × JVal)
  | (k2, .num q) :: rest => if k2 = k then (some q, rest) else (none, (k2, .num q) :: rest)
  | l => (none, l)

def decStep : JVal → Option AutomationStep
  | .obj (("action", .str a) :: rest) =>
      let p1 := takeOptStr "target" rest
      let p2 := takeOptStr "value" p1.2
      let p3 := takeOptNum "timeout" p2.2
      match p3.2 with
      | [] => some { action := a, target := p1.1, value := p2.1, timeout := p3.1 }
      | _ => none
  | _ => none

theorem decStep_enc (s : AutomationStep) : decStep (encStep s) = some s := by
  cases s with | mk a t v tm => cases t <;> cases v <;> cases tm <;> rfl

def encAssertions (a : Assertions) : JVal :=
  .obj [("visual", .bool a.visual), ("functional", .bool a.functional),
        ("performance", .bool a.performance)]

def decAssertions : JVal → Option Assertions
  | .obj [("visual", .bool v), ("functional", .bool f), ("performance", .bool p)] =>
      some { visual := v, functional := f, performance := p }
  | _ => none

theorem decAssertions_enc (a : Assertions) : decAssertions (encAssertions a) = some a := by
  cases a; rfl

def encAutomationSpec (a : AutomationSpec) : JVal :=
  .obj [("steps", .arr (a.steps.map encStep)), ("assertions", encAssertions a.assertions)]

def decAutomationSpec : JVal → Option AutomationSpec
  | .obj [("steps", .arr js), ("assertions", aj)] =>
      match decJList decStep js, decAssertions aj with
      | some steps, some asserts => some { steps := steps, assertions := asserts }
      | _, _ => none
  | _ => none

theorem decAutomationSpec_enc (a : AutomationSpec) :
    decAutomationSpec (encAutomationSpec a) = some a := by
  cases a with | mk steps asserts =>
  simp [encAutomationSpec, decAutomationSpec, decJList_enc encStep decStep decStep_enc,
    decAssertions_enc]

def encExpectations (e : Expectations) : JVal :=
  .obj [("layout", .arr (e.layout.map JVal.str)), ("design", .arr (e.design.map JVal.str)),
        ("accessibility", .arr (e.accessibility.map JVal.str))]

def decExpectations : JVal → Option Expectations
  | .obj [("layout", .arr lj), ("design", .arr dj), ("accessibility", .arr aj)] =>
      match decJList decStr lj, decJList decStr dj, decJList decStr aj with
      | some l, some d, some a => some { layout := l, design := d, accessibility := a }
      | _, _, _ => none
  | _ => none

theorem decExpectations_enc (e : Expectations) :
    decExpectations (encExpectations e) = some e := by
  cases e with | mk l d a =>
  simp [encExpectations, decExpectations, decJList_enc JVal.str decStr decStr_enc]

def encBaselineScreenshots (b : BaselineScreenshots) : JVal :=
  .obj [("baseline", .str b.baseline), ("tolerance", .num b.tolerance)]

def decBaselineScreenshots : JVal → Option BaselineScreenshots
  | .obj [("baseline", .str b), ("tolerance", .num t)] =>
      some { baseline := b, tolerance := t }
  | _ => none

theorem decBaselineScreenshots_enc (b : BaselineScreenshots) :
    decBaselineScreenshots (encBaselineScreenshots b) = some b := by
  cases b; rfl

def encVisualSpec (v : VisualSpec) : JVal :=
  .obj [("instructions", .str v.instructions), ("expectations", encExpectations v.expectations),
        ("screenshots", encBaselineScreenshots v.screenshots)]

def decVisualSpec : JVal → Option VisualSpec
  | .obj [("instructions", .str i), ("expectations", ej), ("screenshots", sj)] =>
      match decExpectations ej, decBaselineScreenshots sj with
      | some e, some s => some { instructions := i, expectations := e, screenshots := s }
      | _, _ => none
  | _ => none

theorem decVisualSpec_enc (v : VisualSpec) : decVisualSpec (encVisualSpec v) = some v := by
  cases v with | mk i e s =>
  simp [encVisualSpec, decVisualSpec, decExpectations_enc, decBaselineScreenshots_enc]

def encTest (t : Test) : JVal :=
  .obj [("id", .str t.id), ("name", .str t.name), ("description", .str t.description),
        ("target", encTarget t.target), ("visual", encVisualSpec t.visual),
        ("automation", encAutomationSpec t.automation)]

def decTest : JVal → Option Test
  | .obj [("id", .str i), ("name", .str n), ("description", .str d),
          ("target", tj), ("visual", vj), ("automation", aj)] =>
      match decTarget tj, decVisualSpec vj, decAutomationSpec aj with
      | some t, some v, some a =>
          some { id := i, name := n, description := d, target := t, visual := v, automation := a }
      | _, _, _ => none
  | _ => none

theorem decTest_enc (t : Test) : decTest (encTest t) = some t := by
  cases t with | mk i n d tg v a =>
  simp [encTest, decTest, decTarget_enc, decVisualSpec_enc, decAutomationSpec_enc]

def encCoordinates (c : Coordinates) : JVal :=
  .obj [("x", .num c.x), ("y", .num c.y)]

def decCoordinates : JVal → Option Coordinates
  | .obj [("x", .num x), ("y", .num y)] => some { x := x, y := y }
  | _ => none

theorem decCoordinates_enc (c : Coordinates) : decCoordinates (encCoordinates c) = some c := by
  cases c; rfl

def encIssueLocation (l : IssueLocation) : JVal :=
  .obj [("selector", .str l.selector), ("screenshot", .str l.screenshot),
        ("coordinates", encCoordinates l.coordinates)]

def decIssueLocation : JVal → Option IssueLocation
  | .obj [("selector", .str s), ("screenshot", .str sc), ("coordinates", cj)] =>
      match decCoordinates cj with
      | some c => some { selector := s, screenshot := sc, coordinates := c }
      | none => none
  | _ => none

theorem decIssueLocation_enc (l : IssueLocation) :
    decIssueLocation (encIssueLocation l) = some l := by
  cases l with | mk s sc c => simp [encIssueLocation, decIssueLocation, decCoordinates_enc]

def encVisualIssue (v : VisualIssue) : JVal :=
  .obj [("severity", .str v.severity), ("description", .str v.description),
        ("location", encIssueLocation v.location), ("recommendation", .str v.recommendation)]

def decVisualIssue : JVal → Option VisualIssue
  | .obj [("severity", .str s), ("description", .str d), ("location", lj),
          ("recommendation", .str r)] =>
      match decIssueLocation lj with
      | some l => some { severity := s, description := d, location := l, recommendation := r }
      | none => none
  | _ => none

theorem decVisualIssue_enc (v : VisualIssue) : decVisualIssue (encVisualIssue v) = some v := by
  cases v with | mk s d l r => simp [encVisualIssue, decVisualIssue, decIssueLocation_enc]

def encVisualMetrics (m : VisualMetrics) : JVal :=
  .obj [("accessibility", .num m.accessibility), ("designConsistency", .num m.designConsistency),
        ("layoutAccuracy", .num m.layoutAccuracy)]

def decVisualMetrics : JVal → Option VisualMetrics
  | .obj [("accessibility", .num a), ("designConsistency", .num d), ("layoutAccuracy", .num l)] =>
      some { accessibility := a, designConsistency := d, layoutAccuracy := l }
  | _ => none

theorem decVisualMetrics_enc (m : VisualMetrics) :
    decVisualMetrics (encVisualMetrics m) = some m := by
  cases m; rfl

def encVisualAnalysisResult (v : VisualAnalysisResult) : JVal :=
  .obj [("observations", .arr (v.observations.map JVal.str)),
        ("issues", .arr (v.issues.map encVisualIssue)), ("metrics", encVisualMetrics v.metrics)]

def decVisualAnalysisResult : JVal → Option VisualAnalysisResult
  | .obj [("observations", .arr oj), ("issues", .arr ij), ("metrics", mj)] =>
      match decJList decStr oj, decJList decVisualIssue ij, decVisualMetrics mj with
      | some o, some i, some m => some { observations := o, issues := i, metrics := m }
      | _, _, _ => none
  | _ => none

theorem decVisualAnalysisResult_enc (v : VisualAnalysisResult) :
    decVisualAnalysisResult (encVisualAnalysisResult v) = some v := by
  cases v with | mk o i m =>
  simp [encVisualAnalysisResult, decVisualAnalysisResult,
    decJList_enc JVal.str decStr decStr_enc,
    decJList_enc encVisualIssue decVisualIssue decVisualIssue_enc, decVisualMetrics_enc]

def encStepResult (r : StepResult) : JVal :=
  .obj ([("status", .str r.status), ("action", .str r.action), ("duration", .num r.duration)] ++
    (match r.error with | none => [] | some e => [("error", .str e)]))

def decStepResult : JVal → Option StepResult
  | .obj [("status", .str s), ("action", .str a), ("duration", .num d)] =>
      some { status := s, action := a, duration := d, error := none }
  | .obj [("status", .str s), ("action", .str a), ("duration", .num d), ("error", .str e)] =>
      some { status := s, action := a, duration := d, error := some e }
  | _ => none

theorem decStepResult_enc (r : StepResult) : decStepResult (encStepResult r) = some r := by
  cases r with | mk s a d e => cases e <;> rfl

def encPerfGroup (p : PerfGroup) : JVal :=
  .obj [("fcp", .num p.fcp), ("lcp", .num p.lcp), ("cls", .num p.cls)]

def decPerfGroup : JVal → Option PerfGroup
  | .obj [("fcp", .num f), ("lcp", .num l), ("cls", .num c)] =>
      some { fcp := f, lcp := l, cls := c }
  | _ => none

theorem decPerfGroup_enc (p : PerfGroup) : decPerfGroup (encPerfGroup p) = some p := by
  cases p; rfl

def encConsoleLogs (c : ConsoleLogs) : JVal :=
  .obj [("errors", .arr (c.errors.map JVal.str)), ("warnings", .arr (c.warnings.map JVal.str))]

def decConsoleLogs : JVal → Option ConsoleLogs
  | .obj [("errors", .arr ej), ("warnings", .arr wj)] =>
      match decJList decStr ej, decJList decStr wj with
      | some e, some w => some { errors := e, warnings := w }
      | _, _ => none
  | _ => none

theorem decConsoleLogs_enc (c : ConsoleLogs) : decConsoleLogs (encConsoleLogs c) = some c := by
  cases c with | mk e w => simp [encConsoleLogs, decConsoleLogs, decJList_enc JVal.str decStr decStr_enc]

def encNetTiming (t : NetTiming) : JVal :=
  .obj [("dns", .num t.dns), ("tcp", .num t.tcp), ("ttfb", .num t.ttfb)]

def decNetTiming : JVal → Option NetTiming
  | .obj [("dns", .num d), ("tcp", .num t), ("ttfb", .num f)] =>
      some { dns := d, tcp := t, ttfb := f }
  | _ => none

theorem decNetTiming_enc (t : NetTiming) : decNetTiming (encNetTiming t) = some t := by
  cases t; rfl

def encNetworkMetrics (n : NetworkMetrics) : JVal :=
  .obj [("requests", .num n.requests), ("failures", .num n.failures),
        ("timing", encNetTiming n.timing)]

def decNetworkMetrics : JVal → Option NetworkMetrics
  | .obj [("requests", .num r), ("failures", .num f), ("timing", tj)] =>
      match decNetTiming tj with
      | some t => some { requests := r, failures := f, timing := t }
      | none => none
  | _ => none

theorem decNetworkMetrics_enc (n : NetworkMetrics) :
    decNetworkMetrics (encNetworkMetrics n) = some n := by
  cases n with | mk r f t => simp [encNetworkMetrics, decNetworkMetrics, decNetTiming_enc]

def encPerformanceMetrics (p : PerformanceMetrics) : JVal :=
  .obj [("performance", encPerfGroup p.performance), ("console", encConsoleLogs p.console),
        ("network", encNetworkMetrics p.network)]

def decPerformanceMetrics : JVal → Option PerformanceMetrics
  | .obj [("performance", pj), ("console", cj), ("network", nj)] =>
      match decPerfGroup pj, decConsoleLogs cj, decNetworkMetrics nj with
      | some p, some c, some n => some { performance := p, console := c, network := n }
      | _, _, _ => none
  | _ => none

theorem decPerformanceMetrics_enc (p : PerformanceMetrics) :
    decPerformanceMetrics (encPerformanceMetrics p) = some p := by
  cases p with | mk pg c n =>
  simp [encPerformanceMetrics, decPerformanceMetrics, decPerfGroup_enc, decConsoleLogs_enc,
    decNetworkMetrics_enc]

def encAutomationResults (a : AutomationResults) : JVal :=
  .obj [("steps", .arr (a.steps.map encStepResult)), ("metrics", encPerformanceMetrics a.metrics)]

def decAutomationResults : JVal → Option AutomationResults
  | .obj [("steps", .arr sj), ("metrics", mj)] =>
      match decJList decStepResult sj, decPerformanceMetrics mj with
      | some s, some m => some { steps := s, metrics := m }
      | _, _ => none
  | _ => none

theorem decAutomationResults_enc (a : AutomationResults) :
    decAutomationResults (encAutomationResults a) = some a := by
  cases a with | mk s m =>
  simp [encAutomationResults, decAutomationResults,
    decJList_enc encStepResult decStepResult decStepResult_enc, decPerformanceMetrics_enc]

def encTestResult (r : TestResult) : JVal :=
  .obj [("id", .str r.id), ("testId", .str r.testId), ("timestamp", .num r.timestamp),
        ("duration", .num r.duration), ("status", .str r.status),
        ("visualAnalysis", encVisualAnalysisResult r.visualAnalysis),
        ("automationResults", encAutomationResults r.automationResults)]

def decTestResult : JVal → Option TestResult
  | .obj [("id", .str i), ("testId", .str ti), ("timestamp", .num ts),
          ("duration", .num d), ("status", .str s), ("visualAnalysis", vj),
          ("automationResults", aj)] =>
      match decVisualAnalysisResult vj, decAutomationResults aj with
      | some v, some a =>
          some { id := i, testId := ti, timestamp := ts, duration := d, status := s,
                 visualAnalysis := v, automationResults := a }
      | _, _ => none
  | _ => none

theorem decTestResult_enc (r : TestResult) : decTestResult (encTestResult r) = some r := by
  cases r with | mk i ti ts d s v a =>
  simp [encTestResult, decTestResult, decVisualAnalysisResult_enc, decAutomationResults_enc]

def encViewportMeta (v : ViewportMeta) : JVal :=
  .obj [("width", .num v.width), ("height", .num v.height)]

def decViewportMeta : JVal → Option ViewportMeta
  | .obj [("width", .num w), ("height", .num h)] => some { width := w, height := h }
  | _ => none

theorem decViewportMeta_enc (v : ViewportMeta) : decViewportMeta (encViewportMeta v) = some v := by
  cases v; rfl

def encScreenshotMeta (m : ScreenshotMeta) : JVal :=
  .obj [("viewport", encViewportMeta m.viewport), ("browser", .str m.browser)]

def decScreenshotMeta : JVal → Option ScreenshotMeta
  | .obj [("viewport", vj), ("browser", .str b)] =>
      match decViewportMeta vj with
      | some v => some { viewport := v, browser := b }
      | none => none
  | _ => none

theorem decScreenshotMeta_enc (m : ScreenshotMeta) :
    decScreenshotMeta (encScreenshotMeta m) = some m := by
  cases m with | mk v b => simp [encScreenshotMeta, decScreenshotMeta, decViewportMeta_enc]

def encScreenshot (s : Screenshot) : JVal :=
  .obj [("id", .str s.id), ("testId", .str s.testId), ("data", .str s.data),
        ("timestamp", .num s.timestamp), ("metadata", encScreenshotMeta s.metadata)]

def decScreenshot : JVal → Option Screenshot
  | .obj [("id", .str i), ("testId", .str t), ("data", .str d), ("timestamp", .num ts),
          ("metadata", mj)] =>
      match decScreenshotMeta mj with
      | some m => some { id := i, testId := t, data := d, timestamp := ts, metadata := m }
      | none => none
  | _ => none

theorem decScreenshot_enc (s : Screenshot) : decScreenshot (encScreenshot s) = some s := by
  cases s with | mk i t d ts m => simp [encScreenshot, decScreenshot, decScreenshotMeta_enc]

def encHistoryRun (h : HistoryRun) : JVal :=
  .obj [("timestamp", .num h.timestamp), ("result", encTestResult h.result)]

def decHistoryRun : JVal → Option HistoryRun
  | .obj [("timestamp", .num t), ("result", rj)] =>
      match decTestResult rj with
      | some r => some { timestamp := t, result := r }
      | none => none
  | _ => none

theorem decHistoryRun_enc (h : HistoryRun) : decHistoryRun (encHistoryRun h) = some h := by
  cases h with | mk t r => simp [encHistoryRun, decHistoryRun, decTestResult_enc]

def encTestHistory (h : TestHistory) : JVal :=
  .obj [("testId", .str h.testId), ("runs", .arr (h.runs.map encHistoryRun))]

def decTestHistory : JVal → Option TestHistory
  | .obj [("testId", .str t), ("runs", .arr rj)] =>
      match decJList decHistoryRun rj with
      | some r => some { testId := t, runs := r }
      | none => none
  | _ => none

theorem decTestHistory_enc (h : TestHistory) : decTestHistory (encTestHistory h) = some h := by
  cases h with | mk t r =>
  simp [encTestHistory, decTestHistory, decJList_enc encHistoryRun decHistoryRun decHistoryRun_enc]

def encIssueCount (i : IssueCount) : JVal :=
  .obj [("type", .str i.type), ("count", .num i.count)]

def decIssueCount : JVal → Option IssueCount
  | .obj [("type", .str t), ("count", .num c)] => some { type := t, count := c }
  | _ => none

theorem decIssueCount_enc (i : IssueCount) : decIssueCount (encIssueCount i) = some i := by
  cases i; rfl

def encTestAnalytics (a : TestAnalytics) : JVal :=
  .obj [("totalRuns", .num a.totalRuns), ("passRate", .num a.passRate),
        ("averageDuration", .num a.averageDuration),
        ("commonIssues", .arr (a.commonIssues.map encIssueCount))]

def decTestAnalytics : JVal → Option TestAnalytics
  | .obj [("totalRuns", .num t), ("passRate", .num p), ("averageDuration", .num d),
          ("commonIssues", .arr cj)] =>
      match decJList decIssueCount cj with
      | some c => some { totalRuns := t, passRate := p, averageDuration := d, commonIssues := c }
      | none => none
  | _ => none

theorem decTestAnalytics_enc (a : TestAnalytics) :
    decTestAnalytics (encTestAnalytics a) = some a := by
  cases a with | mk t p d c =>
  simp [encTestAnalytics, decTestAnalytics, decJList_enc encIssueCount decIssueCount decIssueCount_enc]

def encQueueLists (q : QueueLists) : JVal :=
  .obj [("pending", .arr (q.pending.map encTest)), ("running", .arr (q.running.map encTest)),
        ("completed", .arr (q.completed.map encTest)), ("failed", .arr (q.failed.map encTest))]

def decQueueLists : JVal → Option QueueLists
  | .obj [("pending", .arr pj), ("running", .arr rj), ("completed", .arr cj),
          ("failed", .arr fj)] =>
      match decJList decTest pj, decJList decTest rj, decJList decTest cj,
          decJList decTest fj with
      | some p, some r, some c, some f =>
          some { pending := p, running := r, completed := c, failed := f }
      | _, _, _, _ => none
  | _ => none

theorem decQueueLists_enc (q : QueueLists) : decQueueLists (encQueueLists q) = some q := by
  cases q with | mk p r c f =>
  simp [encQueueLists, decQueueLists, decJList_enc encTest decTest decTest_enc]

def encConcurrency (c : Concurrency) : JVal :=
  .obj [("maxParallel", .num c.maxParallel), ("perBrowser", .num c.perBrowser)]

def decConcurrency : JVal → Option Concurrency
  | .obj [("maxParallel", .num m), ("perBrowser", .num p)] =>
      some { maxParallel := m, perBrowser := p }
  | _ => none

theorem decConcurrency_enc (c : Concurrency) : decConcurrency (encConcurrency c) = some c := by
  cases c; rfl

def encTimeouts (t : Timeouts) : JVal :=
  .obj [("visual", .num t.visual), ("automation", .num t.automation), ("total", .num t.total)]

def decTimeouts : JVal → Option Timeouts
  | .obj [("visual", .num v), ("automation", .num a), ("total", .num t)] =>
      some { visual := v, automation := a, total := t }
  | _ => none

theorem decTimeouts_enc (t : Timeouts) : decTimeouts (encTimeouts t) = some t := by
  cases t; rfl

def encRetries (r : Retries) : JVal :=
  .obj [("count", .num r.count), ("backoff", .str r.backoff)]

def decRetries : JVal → Option Retries
  | .obj [("count", .num c), ("backoff", .str b)] => some { count := c, backoff := b }
  | _ => none

theorem decRetries_enc (r : Retries) : decRetries (encRetries r) = some r := by
  cases r; rfl

def encExecutionConfig (e : ExecutionConfig) : JVal :=
  .obj [("timeouts", encTimeouts e.timeouts), ("retries", encRetries e.retries)]

def decExecutionConfig : JVal → Option ExecutionConfig
  | .obj [("timeouts", tj), ("retries", rj)] =>
      match decTimeouts tj, decRetries rj with
      | some t, some r => some { timeouts := t, retries := r }
      | _, _ => none
  | _ => none

theorem decExecutionConfig_enc (e : ExecutionConfig) :
    decExecutionConfig (encExecutionConfig e) = some e := by
  cases e with | mk t r => simp [encExecutionConfig, decExecutionConfig, decTimeouts_enc, decRetries_enc]

def encTestRunner (t : TestRunner) : JVal :=
  .obj [("queue", encQueueLists t.queue), ("concurrency", encConcurrency t.concurrency),
        ("execution", encExecutionConfig t.execution)]

def decTestRunner : JVal → Option TestRunner
  | .obj [("queue", qj), ("concurrency", cj), ("execution", ej)] =>
      match decQueueLists qj, decConcurrency cj, decExecutionConfig ej with
      | some q, some c, some e => some { queue := q, concurrency := c, execution := e }
      | _, _, _ => none
  | _ => none

theorem decTestRunner_enc (t : TestRunner) : decTestRunner (encTestRunner t) = some t := by
  cases t with | mk q c e =>
  simp [encTestRunner, decTestRunner, decQueueLists_enc, decConcurrency_enc, decExecutionConfig_enc]

/-- state.current.test is null when no test runs; stringify keeps the key. -/
def encOptTest : Option Test → JVal
  | none => .null
  | some t => encTest t

def decOptTest : JVal → Option (Option Test)
  | .null => some none
  | j =>
      match decTest j with
      | some t => some (some t)
      | none => none

theorem decOptTest_enc (t : Option Test) : decOptTest (encOptTest t) = some t := by
  cases t with
  | none => rfl
  | some t =>
      have h : encTest t ≠ JVal.null := by cases t; simp [encTest]
      rw [encOptTest]
      rw [decOptTest.eq_def]
      split
      · exact absurd (by assumption) h
      · simp [decTest_enc]

def encCurrentState (c : CurrentState) : JVal :=
  .obj [("phase", .str c.phase), ("test", encOptTest c.test),
        ("screenshots", .arr (c.screenshots.map encScreenshot)),
        ("results", .arr (c.results.map encTestResult))]

def decCurrentState : JVal → Option CurrentState
  | .obj [("phase", .str p), ("test", tj), ("screenshots", .arr sj), ("results", .arr rj)] =>
      match decOptTest tj, decJList decScreenshot sj, decJList decTestResult rj with
      | some t, some s, some r => some { phase := p, test := t, screenshots := s, results := r }
      | _, _, _ => none
  | _ => none

theorem decCurrentState_enc (c : CurrentState) : decCurrentState (encCurrentState c) = some c := by
  cases c with | mk p t s r =>
  simp [encCurrentState, decCurrentState, decOptTest_enc,
    decJList_enc encScreenshot decScreenshot decScreenshot_enc,
    decJList_enc encTestResult decTestResult decTestResult_enc]

def encHistoryState (h : HistoryState) : JVal :=
  .obj [("tests", .arr (h.tests.map encTestHistory)), ("analytics", encTestAnalytics h.analytics)]

def decHistoryState : JVal → Option HistoryState
  | .obj [("tests", .arr tj), ("analytics", aj)] =>
      match decJList decTestHistory tj, decTestAnalytics aj with
      | some t, some a => some { tests := t, analytics := a }
      | _, _ => none
  | _ => none

theorem decHistoryState_enc (h : HistoryState) : decHistoryState (encHistoryState h) = some h := by
  cases h with | mk t a =>
  simp [encHistoryState, decHistoryState,
    decJList_enc encTestHistory decTestHistory decTestHistory_enc, decTestAnalytics_enc]

def encOrchestratorState (s : OrchestratorState) : JVal :=
  .obj [("current", encCurrentState s.current), ("history", encHistoryState s.history)]

def decOrchestratorState : JVal → Option OrchestratorState
  | .obj [("current", cj), ("history", hj)] =>
      match decCurrentState cj, decHistoryState hj with
      | some c, some h => some { current := c, history := h }
      | _, _ => none
  | _ => none

theorem decOrchestratorState_enc (s : OrchestratorState) :
    decOrchestratorState (encOrchestratorState s) = some s := by
  cases s with | mk c h =>
  simp [encOrchestratorState, decOrchestratorState, decCurrentState_enc, decHistoryState_enc]

def encOrchestrator (o : Orchestrator) : JVal :=
  .obj [("testRunner", encTestRunner o.testRunner), ("state", encOrchestratorState o.state)]

def decOrchestrator : JVal → Option Orchestrator
  | .obj [("testRunner", tj), ("state", sj)] =>
      match decTestRunner tj, decOrchestratorState sj with
      | some t, some s => some { testRunner := t, state := s }
      | _, _ => none
  | _ => none

theorem decOrchestrator_enc (o : Orchestrator) : decOrchestrator (encOrchestrator o) = some o := by
  cases o with | mk t s =>
  simp [encOrchestrator, decOrchestrator, decTestRunner_enc, decOrchestratorState_enc]

/-- The stringify image of a whole snapshot: what saveState writes. -/
def encSystem (s : TestingSystem) : JVal :=
  .obj [("orchestrator", encOrchestrator s.orchestrator)]

/-- Reading a stored snapshot back as a typed system: what loadState's
assignment of the parsed file to this.system amounts to for a file of the
stored shape. -/
def decSystem : JVal → Option TestingSystem
  | .obj [("orchestrator", oj)] =>
      match decOrchestrator oj with
      | some o => some { orchestrator := o }
      | none => none
  | _ => none

/-! ## The POST /test route: the TypeScript server and the compiled server

The TypeScript server (src/index.ts) runs validateTest on the request body
and answers 400 with a structured error, enqueuing nothing, when it fails;
the compiled server (dist index.js) performs no validation at all: it
Object.assigns a fresh id onto the raw body and always calls queueTest.
Request bodies are dynamic JSON, modelled by JVal. -/

/-- JS property read on an object's field list; a later duplicate key
overwrites an earlier one, as in JSON.parse. -/
def jget (fields : List (String × JVal)) (k : String) : Option JVal :=
  fields.foldl (fun acc p => if p.1 = k then some p.2 else acc) none

/-- data.k : undefined (none) when data is not an object or lacks the key. -/
def jprop (j : JVal) (k : String) : Option JVal :=
  match j with
  | .obj fields => jget fields k
  | _ => none

/-- data.k1.k2 (the source only uses the second access behind a truthiness or
optional-chaining guard, so none models both undefined and the guard). -/
def jprop2 (j : JVal) (k1 k2 : String) : Option JVal :=
  match jprop j k1 with
  | some v => jprop v k2
  | none => none

/-- data.k1.k2.k3 likewise. -/
def jprop3 (j : JVal) (k1 k2 k3 : String) : Option JVal :=
  match jprop2 j k1 k2 with
  | some v => jprop v k3
  | none => none

/-- The check `!x || typeof x !== 'string'` passes iff x is a non-empty
string (an empty string is falsy in JS). -/
def truthyStr : Option JVal → Bool
  | some (.str s) => !(s = "")
  | _ => false

/-- The check `!x || typeof x !== 'object'` passes for objects and arrays and
rejects null (falsy) and every primitive. -/
def truthyObj : Option JVal → Bool
  | some (.obj _) => true
  | some (.arr _) => true
  | _ => false

/-- Array.isArray(x). -/
def isArr : Option JVal → Bool
  | some (.arr _) => true
  | _ => false

/-- validateTest of src/index.ts: the structural checks, in source order. -/
def validateTest (data : JVal) : Bool :=
  truthyStr (jprop data "name") &&
  truthyStr (jprop data "description") &&
  truthyStr (jprop2 data "target" "url") &&
  truthyObj (jprop data "visual") &&
  truthyStr (jprop2 data "visual" "instructions") &&
  truthyObj (jprop2 data "visual" "expectations") &&
  isArr (jprop3 data "visual" "expectations" "layout") &&
  isArr (jprop3 data "visual" "expectations" "design") &&
  isArr (jprop3 data "visual" "expectations" "accessibility") &&
  truthyObj (jprop data "automation") &&
  isArr (jprop2 data "automation" "steps") &&
  truthyObj (jprop2 data "automation" "assertions")

/-- What a POST /test route answers and whether it invoked
orchestrator.queueTest. -/
structure PostTestOutcome where
  status : ℕ
  body : JVal
  enqueued : Bool

/-- The POST /test handler of the TypeScript server: validate, and on failure
answer 400 with the structured error body without enqueuing; on success build
the Test (fresh id rid) and enqueue it. -/
def handlePostTestTs (body : JVal) (rid : String) : PostTestOutcome :=
  if validateTest body then
    { status := 200,
      body := .obj [("success", .bool true), ("testId", .str rid)],
      enqueued := true }
  else
    { status := 400,
      body := .obj [("success", .bool false),
                    ("error", .str "Invalid test data format. Please check the specification.")],
      enqueued := false }

/-- The POST /test handler of the compiled server: no validation; it
Object.assigns a fresh id onto the raw body and enqueues the result
unconditionally (its 500 branch is reached only when queueTest itself
rejects, which the orchestrator model never does). -/
def handlePostTestJs (_body : JVal) (rid : String) : PostTestOutcome :=
  { status := 200,
    body := .obj [("success", .bool true), ("testId", .str rid)],
    enqueued := true }

/-! ## Concrete fixtures for counterexamples and witnesses -/

/-- A minimal well-formed test: no steps, no assertions. -/
def sampleTest : Test :=
  { id := "test-1", name := "sample", description := "a sample test",
    target := { url := "http://localhost:3000", baseUrl := none },
    visual :=
      { instructions := "check the layout",
        expectations := { layout := [], design := [], accessibility := [] },
        screenshots := { baseline := "", tolerance := 1 / 10 } },
    automation :=
      { steps := [],
        assertions := { visual := false, functional := false, performance := false } } }

/-- sampleTest with a fresh id and the performance assertion set. -/
def samplePerfTest : Test :=
  { sampleTest with
    id := "test-2",
    automation :=
      { steps := [],
        assertions := { visual := false, functional := false, performance := true } } }

/-- sampleTest with a fresh id and one click step. -/
def sampleClickTest : Test :=
  { sampleTest with
    id := "test-3",
    automation :=
      { steps := [{ action := "click", target := some "#login-button",
                    value := none, timeout := none }],
        assertions := { visual := false, functional := false, performance := false } } }

/-- A TypeScript-copy behaviour whose backend calls all succeed. -/
def okBehaviorSrc : BehaviorSrc :=
  { execStep := fun _ _ _ => (1, .ok ()),
    collectMetrics := fun _ => (1, .ok zeroMetrics) }

/-- A TypeScript-copy behaviour against an uninitialised automation backend:
collectMetrics throws its browser guard; steps would succeed. -/
def noMetricsBehaviorSrc : BehaviorSrc :=
  { execStep := fun _ _ _ => (1, .ok ()),
    collectMetrics := fun _ => (1, .error "Browser not initialized") }

/-- A TypeScript-copy behaviour whose first step throws (for example a click
on a missing selector). -/
def failStepBehaviorSrc : BehaviorSrc :=
  { execStep := fun _ _ _ => (2, .error "Timeout waiting for selector"),
    collectMetrics := fun _ => (1, .ok zeroMetrics) }

/-- A compiled-copy behaviour whose backend calls all succeed. -/
def okBehaviorJs : BehaviorJs :=
  { startTime := 0, elapsed := 5,
    execStep := fun _ s => .ok { status := "pass", action := s.action, duration := 1, error := none },
    captureScreenshot := fun _ _ _ => .ok "img-base64",
    saveScreenshot := fun _ _ _ => .ok "screenshots/file.png",
    collectMetrics := fun _ => .ok zeroMetrics }

/-- A compiled-copy behaviour whose steps fail. -/
def failBehaviorJs : BehaviorJs :=
  { okBehaviorJs with
    execStep := fun _ s =>
      .ok { status := "fail", action := s.action, duration := 1,
            error := some "element not found" } }

/-- A fresh uuid stream for witnesses. -/
def sampleIds (k : ℕ) : String := "result-" ++ toString k

/-- A mid-run snapshot of the source copy: sampleTest was dequeued and is
running (what processQueue leaves just before it awaits runTest). -/
def midRunSys : TestingSystem := startRunSys createInitialSystem sampleTest []

/-- A request body with everything validateTest wants except
automation.assertions. -/
def bodyNoAssertions : JVal :=
  .obj [("name", .str "Homepage Test"), ("description", .str "tests the homepage"),
        ("target", .obj [("url", .str "http://localhost:3000")]),
        ("visual", .obj
          [("instructions", .str "check layout"),
           ("expectations", .obj
             [("layout", .arr []), ("design", .arr []), ("accessibility", .arr [])])]),
        ("automation", .obj [("steps", .arr [])])]

/-! ## Helper lemmas about the two runTest embeddings -/

/-- Whether an Except value is on the ok branch. -/
def exOk {α : Type} : Except String α → Bool
  | .ok _ => true
  | .error _ => false

/-- Whether executeStep of the TypeScript backend succeeds on every step of
the list, in call order. -/
def stepsOkSrc (b : BehaviorSrc) (url : String) : List AutomationStep → ℕ → Bool
  | [], _ => true
  | s :: rest, i =>
      match (b.execStep i s url).2 with
      | .ok _ => stepsOkSrc b url rest (i + 1)
      | .error _ => false

theorem runStepsSrc_thrown_none_iff (b : BehaviorSrc) (url : String) :
    ∀ (steps : List AutomationStep) (i : ℕ) (now : ℚ) (acc : List StepResult),
    (runStepsSrc b url steps i now acc).2.2 = none ↔ stepsOkSrc b url steps i = true := by
  intro steps
  induction steps with
  | nil => intro i now acc; simp [runStepsSrc, stepsOkSrc]
  | cons s rest ih =>
      intro i now acc
      rw [runStepsSrc, stepsOkSrc]
      cases h : (b.execStep i s url).2 with
      | ok _ => simpa using ih (i + 1) (now + (b.execStep i s url).1) _
      | error e => simp

theorem runStepsSrc_thrown_last (b : BehaviorSrc) (url : String) :
    ∀ (steps : List AutomationStep) (i : ℕ) (now : ℚ) (acc : List StepResult) (e : String),
    (runStepsSrc b url steps i now acc).2.2 = some e →
    ∃ sr msg, (runStepsSrc b url steps i now acc).1.getLast? = some sr ∧
      sr.status = "fail" ∧ sr.error = some msg ∧ e = "Step failed: " ++ msg := by
  intro steps
  induction steps with
  | nil => intro i now acc e h; simp [runStepsSrc] at h
  | cons s rest ih =>
      intro i now acc e h
      rw [runStepsSrc] at h ⊢
      cases hs : (b.execStep i s url).2 with
      | ok u =>
          rw [hs] at h
          exact ih (i + 1) _ _ e h
      | error msg =>
          rw [hs] at h
          simp only at h ⊢
          refine ⟨{ status := "fail", action := s.action, duration := (b.execStep i s url).1,
                    error := some msg }, msg, ?_, rfl, rfl, ?_⟩
          · simp
          · simpa using h.symm

/-- The status the TypeScript runTest leaves on its result, as a case split
on the thrown step error and the metrics call. -/
theorem runTestSrc_status (b : BehaviorSrc) (t : Test) (now0 : ℚ) (rid : String)
    (sys : TestingSystem) :
    (runTestSrc b t now0 rid sys).1.status =
      (match (runStepsSrc b t.target.url t.automation.steps 0 now0 []).2.2 with
       | some _ => "fail"
       | none =>
           if t.automation.assertions.performance then
             (match (b.collectMetrics t.target.url).2 with
              | .ok _ => "pass"
              | .error _ => "fail")
           else "pass") := by
  rw [runTestSrc]
  cases h : (runStepsSrc b t.target.url t.automation.steps 0 now0 []).2.2 with
  | none =>
      cases hp : t.automation.assertions.performance with
      | false => simp [h, hp]
      | true =>
          cases hm : (b.collectMetrics t.target.url).2 with
          | ok _ => simp [h, hp, hm]
          | error _ => simp [h, hp, hm]
  | some e => simp [h]

/-- The steps list the TypeScript runTest leaves on its result is exactly what
the step loop accumulated. -/
theorem runTestSrc_steps (b : BehaviorSrc) (t : Test) (now0 : ℚ) (rid : String)
    (sys : TestingSystem) :
    (runTestSrc b t now0 rid sys).1.automationResults.steps =
      (runStepsSrc b t.target.url t.automation.steps 0 now0 []).1 := by
  rw [runTestSrc]
  cases h : (runStepsSrc b t.target.url t.automation.steps 0 now0 []).2.2 with
  | none =>
      cases hp : t.automation.assertions.performance with
      | false => simp [h, hp]
      | true =>
          cases hm : (b.collectMetrics t.target.url).2 with
          | ok _ => simp [h, hp, hm]
          | error _ => simp [h, hp, hm]
  | some e => simp [h]

/-- The TypeScript runTest touches only history.analytics of the system: the
queue lists, the current pointer and the session lists all pass through. -/
theorem runTestSrc_frame (b : BehaviorSrc) (t : Test) (now0 : ℚ) (rid : String)
    (sys : TestingSystem) :
    (runTestSrc b t now0 rid sys).2.1 = updateAnalytics sys (runTestSrc b t now0 rid sys).1 := by
  rfl

/-- The TypeScript runTest never replaces the placeholder visualAnalysis it
initialised the result with (it has no visual-analysis block at all). -/
theorem runTestSrc_visual (b : BehaviorSrc) (t : Test) (now0 : ℚ) (rid : String)
    (sys : TestingSystem) :
    (runTestSrc b t now0 rid sys).1.visualAnalysis = placeholderVA := by
  rw [runTestSrc]
  cases h : (runStepsSrc b t.target.url t.automation.steps 0 now0 []).2.2 with
  | none =>
      cases hp : t.automation.assertions.performance with
      | false => simp [h, hp]
      | true =>
          cases hm : (b.collectMetrics t.target.url).2 with
          | ok _ => simp [h, hp, hm]
          | error _ => simp [h, hp, hm]
  | some e => simp [h]

/-- The status of a compiled-copy run body, characterised by the step-loop
throw and the metrics call. -/
theorem bodyOutcomeJs_status_iff (b : BehaviorJs) (t : Test) :
    (bodyOutcomeJs b t).2.2.2 = "pass" ↔
      ((runStepsJs b t t.automation.steps 0 [] zeroVA).2.2 = none ∧
       (t.automation.assertions.performance = true →
         exOk (b.collectMetrics "http://example.com") = true)) := by
  rw [bodyOutcomeJs, bodyFinishJs]
  cases h : (runStepsJs b t t.automation.steps 0 [] zeroVA).2.2 with
  | none =>
      cases hp : t.automation.assertions.performance with
      | false => simp [hp]
      | true =>
          cases hm : b.collectMetrics "http://example.com" with
          | ok _ => simp [hp, hm, exOk]
          | error _ => simp [hp, hm, exOk]
  | some e => simp

/-- A compiled-copy run body ends "pass" or "fail". -/
theorem bodyOutcomeJs_status_cases (b : BehaviorJs) (t : Test) :
    (bodyOutcomeJs b t).2.2.2 = "pass" ∨ (bodyOutcomeJs b t).2.2.2 = "fail" := by
  rw [bodyOutcomeJs, bodyFinishJs]
  cases h : (runStepsJs b t t.automation.steps 0 [] zeroVA).2.2 with
  | none =>
      cases hp : t.automation.assertions.performance with
      | false => simp
      | true =>
          cases hm : b.collectMetrics "http://example.com" with
          | ok _ => simp
          | error _ => simp
  | some e => simp

theorem resultForJs_status (b : BehaviorJs) (t : Test) (rid : String) :
    (resultForJs b t rid).status = (bodyOutcomeJs b t).2.2.2 := rfl

theorem resultForJs_duration (b : BehaviorJs) (t : Test) (rid : String) :
    (resultForJs b t rid).duration = b.elapsed := rfl

/-! ## State projection lemmas for the compiled copy's transitions -/

@[simp] theorem pendingOf_startRunSys (sys : TestingSystem) (t : Test) (rest : List Test) :
    pendingOf (startRunSys sys t rest) = rest := rfl

@[simp] theorem runningOf_startRunSys (sys : TestingSystem) (t : Test) (rest : List Test) :
    runningOf (startRunSys sys t rest) = runningOf sys ++ [t] := rfl

@[simp] theorem phaseOf_startRunSys (sys : TestingSystem) (t : Test) (rest : List Test) :
    phaseOf (startRunSys sys t rest) = "running" := rfl

@[simp] theorem currentTestOf_startRunSys (sys : TestingSystem) (t : Test) (rest : List Test) :
    currentTestOf (startRunSys sys t rest) = some t := rfl

@[simp] theorem completedOf_startRunSys (sys : TestingSystem) (t : Test) (rest : List Test) :
    completedOf (startRunSys sys t rest) = completedOf sys := rfl

@[simp] theorem failedOf_startRunSys (sys : TestingSystem) (t : Test) (rest : List Test) :
    failedOf (startRunSys sys t rest) = failedOf sys := rfl

@[simp] theorem analyticsOf_startRunSys (sys : TestingSystem) (t : Test) (rest : List Test) :
    analyticsOf (startRunSys sys t rest) = analyticsOf sys := rfl

@[simp] theorem pendingOf_finallySys (sys : TestingSystem) (t : Test) (r : TestResult) :
    pendingOf (finallySys sys t r) = pendingOf sys := by
  simp only [finallySys]; split <;> rfl

@[simp] theorem phaseOf_finallySys (sys : TestingSystem) (t : Test) (r : TestResult) :
    phaseOf (finallySys sys t r) = "setup" := rfl

@[simp] theorem currentTestOf_finallySys (sys : TestingSystem) (t : Test) (r : TestResult) :
    currentTestOf (finallySys sys t r) = none := rfl

@[simp] theorem runningOf_finallySys (sys : TestingSystem) (t : Test) (r : TestResult) :
    runningOf (finallySys sys t r) = removeFirstById (runningOf sys) t.id := by
  simp only [finallySys]; split <;> rfl

theorem completedOf_finallySys (sys : TestingSystem) (t : Test) (r : TestResult) :
    completedOf (finallySys sys t r)
      = completedOf sys ++ (if r.status = "pass" then [t] else []) := by
  by_cases h : r.status = "pass" <;> simp [finallySys, h, completedOf, failedOf, updateAnalytics]

theorem failedOf_finallySys (sys : TestingSystem) (t : Test) (r : TestResult) :
    failedOf (finallySys sys t r)
      = failedOf sys ++ (if r.status = "pass" then [] else [t]) := by
  by_cases h : r.status = "pass" <;> simp [finallySys, h, completedOf, failedOf, updateAnalytics]

theorem resultsOf_finallySys (sys : TestingSystem) (t : Test) (r : TestResult) :
    resultsOf (finallySys sys t r) = resultsOf sys ++ [r] := by
  simp only [finallySys]; split <;> rfl

theorem totalRuns_finallySys (sys : TestingSystem) (t : Test) (r : TestResult) :
    (analyticsOf (finallySys sys t r)).totalRuns = (analyticsOf sys).totalRuns + 1 := by
  simp only [finallySys]; split <;> rfl

theorem passRate_finallySys (sys : TestingSystem) (t : Test) (r : TestResult) :
    (analyticsOf (finallySys sys t r)).passRate
      = ((completedOf (finallySys sys t r)).length : ℚ)
          / ((analyticsOf sys).totalRuns + 1) * 100 := by
  simp only [finallySys]; split <;> rfl

@[simp] theorem runOneJs_sys (b : Test → BehaviorJs) (ids : ℕ → String) (k : ℕ) (t : Test)
    (w : World) :
    (runOneJs b ids k t w).sys = finallySys w.sys t (resultForJs (b t) t (ids k)) := rfl

@[simp] theorem runOneJs_saved (b : Test → BehaviorJs) (ids : ℕ → String) (k : ℕ) (t : Test)
    (w : World) :
    (runOneJs b ids k t w).saved
      = w.saved ++ [finallySys w.sys t (resultForJs (b t) t (ids k))] := rfl

/-! ## Identity bags: the multiset of test ids across the four queue lists -/

def idBag (s : TestingSystem) : Multiset String := (allIds s : Multiset String)

theorem idBag_eq (s : TestingSystem) :
    idBag s = (((pendingOf s).map (·.id) : List String) : Multiset String)
      + ((runningOf s).map (·.id) : List String)
      + ((completedOf s).map (·.id) : List String)
      + ((failedOf s).map (·.id) : List String) := by
  simp only [idBag, allIds, List.map_append, ← Multiset.coe_add]

theorem idBag_startRunSys (sys : TestingSystem) (t : Test) (rest : List Test)
    (hp : pendingOf sys = t :: rest) : idBag (startRunSys sys t rest) = idBag sys := by
  rw [idBag_eq, idBag_eq, hp]
  simp only [pendingOf_startRunSys, runningOf_startRunSys, completedOf_startRunSys,
    failedOf_startRunSys, List.map_append, List.map_cons]
  simp only [← Multiset.coe_add, ← Multiset.cons_coe]
  simp only [← Multiset.singleton_add, Multiset.coe_singleton]
  abel

theorem idBag_finallySys (sys : TestingSystem) (t : Test) (r : TestResult)
    (hr : runningOf sys = [t]) : idBag (finallySys sys t r) = idBag sys := by
  have hrem : removeFirstById [t] t.id = [] := by simp [removeFirstById]
  rw [idBag_eq, idBag_eq]
  rw [pendingOf_finallySys, runningOf_finallySys, completedOf_finallySys, failedOf_finallySys,
    hr, hrem]
  by_cases h : r.status = "pass"
  · rw [if_pos h, if_pos h]
    simp only [List.map_append, List.map_cons, List.map_nil, List.append_nil,
      ← Multiset.coe_add, ← Multiset.cons_coe, ← Multiset.singleton_add,
      Multiset.coe_singleton, Multiset.coe_nil]
    abel
  · rw [if_neg h, if_neg h]
    simp only [List.map_append, List.map_cons, List.map_nil, List.append_nil,
      ← Multiset.coe_add, ← Multiset.cons_coe, ← Multiset.singleton_add,
      Multiset.coe_singleton, Multiset.coe_nil]
    abel

@[simp] theorem saveState_sys (w : World) : (saveState w).sys = w.sys := rfl

@[simp] theorem saveState_saved (w : World) : (saveState w).saved = w.saved ++ [w.sys] := rfl

/-! ## The drain of the pending backlog -/

/-- What one full drain of the pending backlog by the compiled copy's
processQueue guarantees, relative to the world w it started from and the
backlog ps it drained: every backlog test is started in order, the final
state is idle again, passing tests land in completed and the rest in failed,
totalRuns grows by the number of runs, the final passRate is the
completed-count over totalRuns ratio, no test identity is created or lost,
and every snapshot saved along the way has at most one running test and the
same identity bag. -/
def DrainSpec (b : Test → BehaviorJs) (w : World) (ps : List Test)
    (out : World × ℕ × List Test) : Prop :=
  out.2.2 = ps ∧
  pendingOf out.1.sys = [] ∧
  phaseOf out.1.sys = "setup" ∧
  runningOf out.1.sys = [] ∧
  currentTestOf out.1.sys = none ∧
  completedOf out.1.sys = completedOf w.sys ++ ps.filter (fun t => passesJs (b t) t) ∧
  failedOf out.1.sys = failedOf w.sys ++ ps.filter (fun t => !(passesJs (b t) t)) ∧
  (analyticsOf out.1.sys).totalRuns = (analyticsOf w.sys).totalRuns + (ps.length : ℚ) ∧
  (ps ≠ [] → (analyticsOf out.1.sys).passRate
      = ((completedOf out.1.sys).length : ℚ) / (analyticsOf out.1.sys).totalRuns * 100) ∧
  idBag out.1.sys = idBag w.sys ∧
  (∀ s ∈ out.1.saved, s ∈ w.saved ∨ ((runningOf s).length ≤ 1 ∧ idBag s = idBag w.sys)) ∧
  (ps = [] → out.1 = w)

theorem drain_spec (b : Test → BehaviorJs) (ids : ℕ → String) :
    ∀ (ps : List Test) (fuel k : ℕ) (w : World),
    pendingOf w.sys = ps → phaseOf w.sys = "setup" → runningOf w.sys = [] →
    currentTestOf w.sys = none → ps.length ≤ fuel →
    DrainSpec b w ps (processQueueJsF b ids fuel k w) := by
  intro ps
  induction ps with
  | nil =>
      intro fuel k w hp hphase hrun htest _
      have hout : processQueueJsF b ids fuel k w = (w, k, []) := by
        cases fuel with
        | zero => rfl
        | succ f => rw [processQueueJsF, if_neg (by simp [hphase]), hp]
      rw [hout]
      exact ⟨rfl, hp, hphase, hrun, htest, by simp, by simp, by simp, by simp, rfl,
        fun s hs => Or.inl hs, fun _ => rfl⟩
  | cons t rest ih =>
      intro fuel k w hp hphase hrun htest hfuel
      cases fuel with
      | zero => simp at hfuel
      | succ f =>
          have hstep : processQueueJsF b ids (f + 1) k w =
              ((processQueueJsF b ids f (k + 1)
                  (runOneJs b ids k t (saveState { w with sys := startRunSys w.sys t rest }))).1,
               (processQueueJsF b ids f (k + 1)
                  (runOneJs b ids k t (saveState { w with sys := startRunSys w.sys t rest }))).2.1,
               t :: (processQueueJsF b ids f (k + 1)
                  (runOneJs b ids k t (saveState { w with sys := startRunSys w.sys t rest }))).2.2) := by
            rw [processQueueJsF, if_neg (by simp [hphase]), hp]
          have hw2sys : (runOneJs b ids k t
                (saveState { w with sys := startRunSys w.sys t rest })).sys
              = finallySys (startRunSys w.sys t rest) t (resultForJs (b t) t (ids k)) := rfl
          have h2pending : pendingOf (runOneJs b ids k t
                (saveState { w with sys := startRunSys w.sys t rest })).sys = rest := by
            rw [hw2sys, pendingOf_finallySys, pendingOf_startRunSys]
          have h2phase : phaseOf (runOneJs b ids k t
                (saveState { w with sys := startRunSys w.sys t rest })).sys = "setup" := by
            rw [hw2sys, phaseOf_finallySys]
          have h2run : runningOf (runOneJs b ids k t
                (saveState { w with sys := startRunSys w.sys t rest })).sys = [] := by
            rw [hw2sys, runningOf_finallySys, runningOf_startRunSys, hrun]
            simp [removeFirstById]
          have h2test : currentTestOf (runOneJs b ids k t
                (saveState { w with sys := startRunSys w.sys t rest })).sys = none := by
            rw [hw2sys, currentTestOf_finallySys]
          have hflen : rest.length ≤ f := by
            simp only [List.length_cons] at hfuel; omega
          have hspec := ih f (k + 1)
            (runOneJs b ids k t (saveState { w with sys := startRunSys w.sys t rest }))
            h2pending h2phase h2run h2test hflen
          obtain ⟨hlog, hpend, hph, hrn, hts, hcomp, hfail, hruns, hrate, hbag, hsaved, hnil⟩ :=
            hspec
          have hbagStart : idBag (startRunSys w.sys t rest) = idBag w.sys :=
            idBag_startRunSys w.sys t rest hp
          have hrunStart : runningOf (startRunSys w.sys t rest) = [t] := by
            rw [runningOf_startRunSys, hrun]; rfl
          have hbag2 : idBag (runOneJs b ids k t
                (saveState { w with sys := startRunSys w.sys t rest })).sys = idBag w.sys := by
            rw [hw2sys, idBag_finallySys _ _ _ hrunStart, hbagStart]
          rw [hstep]
          refine ⟨?_, hpend, hph, hrn, hts, ?_, ?_, ?_, ?_, ?_, ?_, ?_⟩
          · rw [hlog]
          · rw [hcomp, hw2sys, completedOf_finallySys, completedOf_startRunSys,
              resultForJs_status]
            by_cases hps : (bodyOutcomeJs (b t) t).2.2.2 = "pass"
            · rw [if_pos hps]
              simp [List.filter_cons, passesJs, hps]
            · rw [if_neg hps]
              simp [List.filter_cons, passesJs, hps]
          · rw [hfail, hw2sys, failedOf_finallySys, failedOf_startRunSys, resultForJs_status]
            by_cases hps : (bodyOutcomeJs (b t) t).2.2.2 = "pass"
            · rw [if_pos hps]
              simp [List.filter_cons, passesJs, hps]
            · rw [if_neg hps]
              simp [List.filter_cons, passesJs, hps]
          · rw [hruns, hw2sys, totalRuns_finallySys, analyticsOf_startRunSys]
            simp only [List.length_cons]
            push_cast
            ring
          · intro _
            by_cases hrest : rest = []
            · rw [hnil hrest, hw2sys, passRate_finallySys, totalRuns_finallySys]
            · exact hrate hrest
          · rw [hbag, hbag2]
          · intro s hs
            rcases hsaved s hs with hmem | ⟨hlen, hbs⟩
            · rw [runOneJs_saved, saveState_saved] at hmem
              rcases List.mem_append.mp hmem with hmem2 | hlast
              · rcases List.mem_append.mp hmem2 with hmemw | hstart
                · exact Or.inl hmemw
                · right
                  have hseq : s = startRunSys w.sys t rest := by simpa using hstart
                  subst hseq
                  exact ⟨by rw [hrunStart]; exact le_refl 1, hbagStart⟩
              · right
                have hseq : s = finallySys (startRunSys w.sys t rest) t
                    (resultForJs (b t) t (ids k)) := by simpa using hlast
                subst hseq
                constructor
                · rw [← hw2sys, h2run]; exact Nat.zero_le 1
                · rw [← hw2sys, hbag2]
            · exact Or.inr ⟨hlen, by rw [hbs, hbag2]⟩
          · intro habs; exact absurd habs (by simp)

@[simp] theorem pendingOf_pushPendingSys (sys : TestingSystem) (t : Test) :
    pendingOf (pushPendingSys sys t) = pendingOf sys ++ [t] := rfl

@[simp] theorem phaseOf_pushPendingSys (sys : TestingSystem) (t : Test) :
    phaseOf (pushPendingSys sys t) = phaseOf sys := rfl

@[simp] theorem runningOf_pushPendingSys (sys : TestingSystem) (t : Test) :
    runningOf (pushPendingSys sys t) = runningOf sys := rfl

@[simp] theorem currentTestOf_pushPendingSys (sys : TestingSystem) (t : Test) :
    currentTestOf (pushPendingSys sys t) = currentTestOf sys := rfl

@[simp] theorem completedOf_pushPendingSys (sys : TestingSystem) (t : Test) :
    completedOf (pushPendingSys sys t) = completedOf sys := rfl

@[simp] theorem failedOf_pushPendingSys (sys : TestingSystem) (t : Test) :
    failedOf (pushPendingSys sys t) = failedOf sys := rfl

@[simp] theorem analyticsOf_pushPendingSys (sys : TestingSystem) (t : Test) :
    analyticsOf (pushPendingSys sys t) = analyticsOf sys := rfl

theorem idBag_pushPendingSys (sys : TestingSystem) (t : Test) :
    idBag (pushPendingSys sys t) = idBag sys + {t.id} := by
  rw [idBag_eq, idBag_eq]
  simp only [pendingOf_pushPendingSys, runningOf_pushPendingSys, completedOf_pushPendingSys,
    failedOf_pushPendingSys, List.map_append, List.map_cons, List.map_nil,
    ← Multiset.coe_add, ← Multiset.cons_coe, ← Multiset.singleton_add,
    Multiset.coe_singleton, Multiset.coe_nil]
  abel

/-! ## A synchronous sequence of queueTest calls -/

/-- What a synchronous sequence of queueTest calls against the compiled copy
guarantees, relative to the idle world w it started from: the tests start in
enqueue order, the final world is idle, passing runs accumulate in completed,
totalRuns counts every run, the final passRate is the completed-count over
totalRuns ratio, the identity bag grows by exactly the enqueued ids, and
every snapshot saved along the way has at most one running test and only
identities seen so far. -/
def DriveSpec (b : Test → BehaviorJs) (w : World) (ts : List Test)
    (out : World × ℕ × List Test) : Prop :=
  out.2.2 = ts ∧
  pendingOf out.1.sys = [] ∧
  phaseOf out.1.sys = "setup" ∧
  runningOf out.1.sys = [] ∧
  currentTestOf out.1.sys = none ∧
  completedOf out.1.sys = completedOf w.sys ++ ts.filter (fun t => passesJs (b t) t) ∧
  (analyticsOf out.1.sys).totalRuns = (analyticsOf w.sys).totalRuns + (ts.length : ℚ) ∧
  (ts ≠ [] → (analyticsOf out.1.sys).passRate
      = ((completedOf out.1.sys).length : ℚ) / (analyticsOf out.1.sys).totalRuns * 100) ∧
  idBag out.1.sys = idBag w.sys + (↑(ts.map (·.id)) : Multiset String) ∧
  (∀ s ∈ out.1.saved, s ∈ w.saved ∨
    ((runningOf s).length ≤ 1 ∧
     idBag s ≤ idBag w.sys + (↑(ts.map (·.id)) : Multiset String))) ∧
  (ts = [] → out.1 = w)

theorem driveAll_spec (b : Test → BehaviorJs) (ids : ℕ → String) :
    ∀ (ts : List Test) (k : ℕ) (w : World),
    pendingOf w.sys = [] → phaseOf w.sys = "setup" → runningOf w.sys = [] →
    currentTestOf w.sys = none →
    DriveSpec b w ts (driveAllJs b ids ts k w) := by
  intro ts
  induction ts with
  | nil =>
      intro k w hp hphase hrun htest
      have h0 : driveAllJs b ids [] k w = (w, k, []) := rfl
      rw [h0]
      exact ⟨rfl, hp, hphase, hrun, htest, by simp, by simp, by simp, by simp,
        fun s hs => Or.inl hs, fun _ => rfl⟩
  | cons t ts ih =>
      intro k w hp hphase hrun htest
      have hw1p : pendingOf (saveState { w with sys := pushPendingSys w.sys t }).sys = [t] := by
        simp [hp]
      have hdrain := drain_spec b ids [t]
        (pendingOf (saveState { w with sys := pushPendingSys w.sys t }).sys).length k
        (saveState { w with sys := pushPendingSys w.sys t })
        hw1p (by simpa using hphase) (by simpa using hrun) (by simpa using htest)
        (by rw [hw1p])
      have hqeq : queueTestJs b ids k t w =
          processQueueJsF b ids
            (pendingOf (saveState { w with sys := pushPendingSys w.sys t }).sys).length k
            (saveState { w with sys := pushPendingSys w.sys t }) := rfl
      rw [← hqeq] at hdrain
      obtain ⟨hlog1, hpend1, hph1, hrn1, hts1, hcomp1, _hfail1, hruns1, hrate1, hbag1,
        hsaved1, _hnil1⟩ := hdrain
      have hspec2 := ih (queueTestJs b ids k t w).2.1 (queueTestJs b ids k t w).1
        hpend1 hph1 hrn1 hts1
      obtain ⟨hlog2, hpend2, hph2, hrn2, hts2, hcomp2, hruns2, hrate2, hbag2, hsaved2, hnil2⟩ :=
        hspec2
      have hpush : idBag (saveState { w with sys := pushPendingSys w.sys t }).sys
          = idBag w.sys + {t.id} := by
        rw [saveState_sys]
        exact idBag_pushPendingSys w.sys t
      have hstep : driveAllJs b ids (t :: ts) k w =
          ((driveAllJs b ids ts (queueTestJs b ids k t w).2.1 (queueTestJs b ids k t w).1).1,
           (driveAllJs b ids ts (queueTestJs b ids k t w).2.1 (queueTestJs b ids k t w).1).2.1,
           (queueTestJs b ids k t w).2.2 ++
             (driveAllJs b ids ts (queueTestJs b ids k t w).2.1 (queueTestJs b ids k t w).1).2.2) :=
        rfl
      rw [hstep]
      refine ⟨?_, hpend2, hph2, hrn2, hts2, ?_, ?_, ?_, ?_, ?_, ?_⟩
      · rw [hlog1, hlog2]; rfl
      · rw [hcomp2, hcomp1]
        simp only [saveState_sys, completedOf_pushPendingSys]
        by_cases hps : passesJs (b t) t = true
        · simp [List.filter_cons, hps]
        · simp only [Bool.not_eq_true] at hps
          simp [List.filter_cons, hps]
      · rw [hruns2, hruns1]
        simp only [saveState_sys, analyticsOf_pushPendingSys, List.length_cons,
          List.length_singleton, List.length_nil]
        push_cast
        ring
      · intro _
        by_cases hts0 : ts = []
        · rw [hnil2 hts0]
          exact hrate1 (by simp)
        · exact hrate2 hts0
      · rw [hbag2, hbag1, hpush]
        simp only [List.map_cons, ← Multiset.cons_coe, ← Multiset.singleton_add]
        abel
      · intro s hs
        rcases hsaved2 s hs with hmem1 | ⟨hlen, hle⟩
        · rcases hsaved1 s hmem1 with hmem0 | ⟨hlen0, hbs0⟩
          · rw [saveState_saved] at hmem0
            rcases List.mem_append.mp hmem0 with hw | hpushmem
            · exact Or.inl hw
            · right
              have hseq : s = pushPendingSys w.sys t := by simpa using hpushmem
              subst hseq
              refine ⟨by rw [runningOf_pushPendingSys, hrun]; exact Nat.zero_le 1, ?_⟩
              rw [idBag_pushPendingSys]
              calc idBag w.sys + {t.id}
                  ≤ idBag w.sys + {t.id} + (↑(ts.map (·.id)) : Multiset String) :=
                    self_le_add_right _ _
                _ = idBag w.sys + (↑((t :: ts).map (·.id)) : Multiset String) := by
                    simp only [List.map_cons, ← Multiset.cons_coe, ← Multiset.singleton_add]
                    abel
          · right
            refine ⟨hlen0, ?_⟩
            rw [hbs0, hpush]
            calc idBag w.sys + {t.id}
                ≤ idBag w.sys + {t.id} + (↑(ts.map (·.id)) : Multiset String) :=
                  self_le_add_right _ _
              _ = idBag w.sys + (↑((t :: ts).map (·.id)) : Multiset String) := by
                  simp only [List.map_cons, ← Multiset.cons_coe, ← Multiset.singleton_add]
                  abel
        · right
          refine ⟨hlen, ?_⟩
          rw [hbag1, hpush] at hle
          calc idBag s ≤ idBag w.sys + {t.id} + (↑(ts.map (·.id)) : Multiset String) := hle
            _ = idBag w.sys + (↑((t :: ts).map (·.id)) : Multiset String) := by
                simp only [List.map_cons, ← Multiset.cons_coe, ← Multiset.singleton_add]
                abel
      · intro habs; exact absurd habs (by simp)

/-! ## The claims -/

/-- Claim C1, counterexample: with no steps configured, the performance
assertion set, and an uninitialised backend, the TypeScript runTest produces
a result whose steps list is empty (so every StepResult has status "pass" and
no step threw) and whose status is "fail", not "pass" as the claimed
biconditional requires. -/
theorem c1_status_claim_false :
    (runTestSrc noMetricsBehaviorSrc samplePerfTest 0 "r1"
        createInitialSystem).1.automationResults.steps = [] ∧
    (runTestSrc noMetricsBehaviorSrc samplePerfTest 0 "r1"
        createInitialSystem).1.status = "fail" := by
  exact ⟨rfl, rfl⟩

/-- Claim C1, amended: in both orchestrator copies the run status is "pass"
iff every step call succeeded AND, when the performance assertion is set,
metrics collection did not throw; otherwise it is "fail".  (The claim as
stated omits the metrics conjunct.) -/
theorem c1_status_pass_characterization :
    ∀ (b : BehaviorSrc) (bj : BehaviorJs) (t : Test) (now0 : ℚ) (rid : String)
      (sys : TestingSystem),
    ((runTestSrc b t now0 rid sys).1.status = "pass" ↔
      (stepsOkSrc b t.target.url t.automation.steps 0 = true ∧
       (t.automation.assertions.performance = true →
         exOk (b.collectMetrics t.target.url).2 = true))) ∧
    ((runTestSrc b t now0 rid sys).1.status = "pass" ∨
     (runTestSrc b t now0 rid sys).1.status = "fail") ∧
    ((bodyOutcomeJs bj t).2.2.2 = "pass" ↔
      ((runStepsJs bj t t.automation.steps 0 [] zeroVA).2.2 = none ∧
       (t.automation.assertions.performance = true →
         exOk (bj.collectMetrics "http://example.com") = true))) := by
  intro b bj t now0 rid sys
  refine ⟨?_, ?_, bodyOutcomeJs_status_iff bj t⟩
  · rw [runTestSrc_status]
    have hiff := runStepsSrc_thrown_none_iff b t.target.url t.automation.steps 0 now0 []
    cases h : (runStepsSrc b t.target.url t.automation.steps 0 now0 []).2.2 with
    | none =>
        rw [h] at hiff
        have hok : stepsOkSrc b t.target.url t.automation.steps 0 = true := hiff.mp rfl
        cases hp : t.automation.assertions.performance with
        | false => simp [hok, hp]
        | true =>
            cases hm : (b.collectMetrics t.target.url).2 with
            | ok m => simp [hok, hp, hm, exOk]
            | error e =>
                have hno : ("fail" : String) ≠ "pass" := by decide
                simp [hok, hp, hm, exOk, hno]
    | some e =>
        rw [h] at hiff
        have hnok : ¬(stepsOkSrc b t.target.url t.automation.steps 0 = true) := by
          intro hcon
          exact absurd (hiff.mpr hcon) (by simp)
        have hno : ("fail" : String) ≠ "pass" := by decide
        simp [hnok, hno]
  · rw [runTestSrc_status]
    cases h : (runStepsSrc b t.target.url t.automation.steps 0 now0 []).2.2 with
    | none =>
        cases hp : t.automation.assertions.performance with
        | false => simp
        | true =>
            cases hm : (b.collectMetrics t.target.url).2 with
            | ok m => simp
            | error e => simp
    | some e => simp

/-- Claim C2, counterexample: the TypeScript source copy's runTest finishes a
passing run without appending the result to the session results, without
removing the test from running, without moving it to completed, and without
resetting the phase — its finally block only computes the duration and
updates analytics. -/
theorem c2_src_finally_claim_false :
    (runTestSrc okBehaviorSrc sampleTest 0 "r2" midRunSys).1.status = "pass" ∧
    resultsOf (runTestSrc okBehaviorSrc sampleTest 0 "r2" midRunSys).2.1 = [] ∧
    runningOf (runTestSrc okBehaviorSrc sampleTest 0 "r2" midRunSys).2.1 = [sampleTest] ∧
    phaseOf (runTestSrc okBehaviorSrc sampleTest 0 "r2" midRunSys).2.1 = "running" ∧
    completedOf (runTestSrc okBehaviorSrc sampleTest 0 "r2" midRunSys).2.1 = [] := by
  exact ⟨rfl, rfl, rfl, rfl, rfl⟩

/-- Claim C2, amended: in the compiled copy every run of runTest ends with a
finally phase that sets the result's duration to the elapsed time, appends
the result to the session results, removes the test from running, moves it to
completed or failed by status, increments totalRuns through updateAnalytics,
resets the phase to "setup" and the current test to null, persists the
snapshot, and re-invokes processQueue; the TypeScript source copy performs
none of the queue, phase or persistence steps (see the counterexample). -/
theorem c2_js_finally_phase :
    ∀ (b : Test → BehaviorJs) (ids : ℕ → String) (k : ℕ) (t : Test) (w : World),
    ∃ r : TestResult,
      r = resultForJs (b t) t (ids k) ∧
      r.duration = (b t).elapsed ∧
      runTestJs b ids k t w = processQueueJs b ids (k + 1) (runOneJs b ids k t w) ∧
      (runOneJs b ids k t w).sys = finallySys w.sys t r ∧
      (runOneJs b ids k t w).saved = w.saved ++ [finallySys w.sys t r] ∧
      resultsOf (finallySys w.sys t r) = resultsOf w.sys ++ [r] ∧
      runningOf (finallySys w.sys t r) = removeFirstById (runningOf w.sys) t.id ∧
      completedOf (finallySys w.sys t r)
        = completedOf w.sys ++ (if r.status = "pass" then [t] else []) ∧
      failedOf (finallySys w.sys t r)
        = failedOf w.sys ++ (if r.status = "pass" then [] else [t]) ∧
      (analyticsOf (finallySys w.sys t r)).totalRuns = (analyticsOf w.sys).totalRuns + 1 ∧
      phaseOf (finallySys w.sys t r) = "setup" ∧
      currentTestOf (finallySys w.sys t r) = none := by
  intro b ids k t w
  exact ⟨resultForJs (b t) t (ids k), rfl, rfl, rfl, rfl, rfl,
    resultsOf_finallySys _ _ _, runningOf_finallySys _ _ _, completedOf_finallySys _ _ _,
    failedOf_finallySys _ _ _, totalRuns_finallySys _ _ _, rfl, rfl⟩

/-- Claim C3: processQueue is a no-op unless the phase is "setup"; otherwise
it removes the head of pending, moves it into running, sets the phase to
"running" and the current test, and runs it; and across any synchronous
sequence of queueTest calls against the compiled copy the tests start in
exactly the enqueue order, with at most one test in running at every saved
snapshot. -/
theorem c3_fifo_single_flight :
    (∀ (b : Test → BehaviorJs) (ids : ℕ → String) (fuel k : ℕ) (w : World),
      phaseOf w.sys ≠ "setup" → processQueueJsF b ids fuel k w = (w, k, [])) ∧
    (∀ (b : Test → BehaviorJs) (ids : ℕ → String) (fuel k : ℕ) (w : World) (t : Test)
       (rest : List Test),
      phaseOf w.sys = "setup" → pendingOf w.sys = t :: rest →
      processQueueJsF b ids (fuel + 1) k w =
        ((processQueueJsF b ids fuel (k + 1)
            (runOneJs b ids k t (saveState { w with sys := startRunSys w.sys t rest }))).1,
         (processQueueJsF b ids fuel (k + 1)
            (runOneJs b ids k t (saveState { w with sys := startRunSys w.sys t rest }))).2.1,
         t :: (processQueueJsF b ids fuel (k + 1)
            (runOneJs b ids k t (saveState { w with sys := startRunSys w.sys t rest }))).2.2) ∧
      pendingOf (startRunSys w.sys t rest) = rest ∧
      runningOf (startRunSys w.sys t rest) = runningOf w.sys ++ [t] ∧
      phaseOf (startRunSys w.sys t rest) = "running" ∧
      currentTestOf (startRunSys w.sys t rest) = some t) ∧
    (∀ (b : Test → BehaviorJs) (ids : ℕ → String) (ts : List Test) (k : ℕ) (w : World),
      pendingOf w.sys = [] → phaseOf w.sys = "setup" → runningOf w.sys = [] →
      currentTestOf w.sys = none →
      (driveAllJs b ids ts k w).2.2 = ts ∧
      (∀ s ∈ (driveAllJs b ids ts k w).1.saved,
        s ∈ w.saved ∨ (runningOf s).length ≤ 1)) := by
  refine ⟨?_, ?_, ?_⟩
  · intro b ids fuel k w h
    cases fuel with
    | zero => rfl
    | succ f => rw [processQueueJsF, if_pos h]
  · intro b ids fuel k w t rest hphase hp
    refine ⟨?_, rfl, rfl, rfl, rfl⟩
    rw [processQueueJsF, if_neg (by simp [hphase]), hp]
  · intro b ids ts k w hp hphase hrun htest
    obtain ⟨hlog, _, _, _, _, _, _, _, _, hsaved, _⟩ :=
      driveAll_spec b ids ts k w hp hphase hrun htest
    exact ⟨hlog, fun s hs => (hsaved s hs).imp id (fun hh => hh.1)⟩

/-- Claim C3, witness: two concrete tests queued against the fresh world
start in exactly their enqueue order. -/
theorem c3_fifo_single_flight_inst :
    (driveAllJs (fun _ => okBehaviorJs) sampleIds [sampleTest, sampleClickTest] 0
        initWorld).2.2 = [sampleTest, sampleClickTest] := by
  exact (c3_fifo_single_flight.2.2 (fun _ => okBehaviorJs) sampleIds
    [sampleTest, sampleClickTest] 0 initWorld rfl rfl rfl rfl).1

/-- Claim C4: starting from an idle world whose queue identities together
with the enqueued ids are distinct, every snapshot saved during a synchronous
sequence of queueTest calls has no test identity in two queue lists (nor
twice in one), and the final snapshot holds exactly the initial identities
plus the enqueued ones — each test identity sits in exactly one of the four
lists. -/
theorem c4_queue_partition_invariant :
    ∀ (b : Test → BehaviorJs) (ids : ℕ → String) (ts : List Test) (k : ℕ) (w : World),
    (allIds w.sys ++ ts.map (·.id)).Nodup →
    pendingOf w.sys = [] → phaseOf w.sys = "setup" → runningOf w.sys = [] →
    currentTestOf w.sys = none →
    (∀ s ∈ (driveAllJs b ids ts k w).1.saved, s ∈ w.saved ∨ (allIds s).Nodup) ∧
    idBag (driveAllJs b ids ts k w).1.sys
      = idBag w.sys + (↑(ts.map (·.id)) : Multiset String) := by
  intro b ids ts k w hnodup hp hphase hrun htest
  obtain ⟨_, _, _, _, _, _, _, _, hbag, hsaved, _⟩ :=
    driveAll_spec b ids ts k w hp hphase hrun htest
  refine ⟨?_, hbag⟩
  intro s hs
  rcases hsaved s hs with h | ⟨_, hle⟩
  · exact Or.inl h
  · right
    have htot : (idBag w.sys + (↑(ts.map (·.id)) : Multiset String)).Nodup := by
      have hcoe : idBag w.sys + (↑(ts.map (·.id)) : Multiset String)
          = ((allIds w.sys ++ ts.map (·.id) : List String) : Multiset String) :=
        Multiset.coe_add _ _
      rw [hcoe, Multiset.coe_nodup]
      exact hnodup
    have hnd := Multiset.nodup_of_le hle htot
    rw [idBag, Multiset.coe_nodup] at hnd
    exact hnd

/-- Claim C4, witness: driving two fresh tests through the fresh world leaves
exactly their two identities in the queue lists. -/
theorem c4_queue_partition_invariant_inst :
    idBag (driveAllJs (fun _ => okBehaviorJs) sampleIds [sampleTest, samplePerfTest] 0
        initWorld).1.sys
      = idBag initWorld.sys
          + (↑([sampleTest, samplePerfTest].map (·.id)) : Multiset String) := by
  exact (c4_queue_partition_invariant (fun _ => okBehaviorJs) sampleIds
    [sampleTest, samplePerfTest] 0 initWorld (by decide) rfl rfl rfl rfl).2

/-- Claim C5, counterexample: a thrown error outside step execution (metrics
collection against an uninitialised backend) leaves run status "fail", not
"error" as claimed. -/
theorem c5_error_status_claim_false :
    (runTestSrc noMetricsBehaviorSrc samplePerfTest 0 "r5"
        createInitialSystem).1.status = "fail" ∧
    ¬((runTestSrc noMetricsBehaviorSrc samplePerfTest 0 "r5"
        createInitialSystem).1.status = "error") := by
  exact ⟨rfl, by decide⟩

/-- Claim C5, amended: a thrown error during a step produces a "fail"
StepResult carrying the error text (the last recorded step) and run status
"fail"; a thrown error outside step execution (for example metrics collection
with the backend not initialised) also produces run status "fail"; no
completed run carries status "error". -/
theorem c5_error_handling :
    ∀ (b : BehaviorSrc) (t : Test) (now0 : ℚ) (rid : String) (sys : TestingSystem),
    ((runTestSrc b t now0 rid sys).1.status = "pass" ∨
     (runTestSrc b t now0 rid sys).1.status = "fail") ∧
    ¬((runTestSrc b t now0 rid sys).1.status = "error") ∧
    (∀ e : String,
      (runStepsSrc b t.target.url t.automation.steps 0 now0 []).2.2 = some e →
      (runTestSrc b t now0 rid sys).1.status = "fail" ∧
      ∃ sr msg,
        (runTestSrc b t now0 rid sys).1.automationResults.steps.getLast? = some sr ∧
        sr.status = "fail" ∧ sr.error = some msg ∧ e = "Step failed: " ++ msg) ∧
    (∀ (q : ℚ) (em : String),
      t.automation.assertions.performance = true →
      (runStepsSrc b t.target.url t.automation.steps 0 now0 []).2.2 = none →
      b.collectMetrics t.target.url = (q, .error em) →
      (runTestSrc b t now0 rid sys).1.status = "fail") := by
  intro b t now0 rid sys
  have hcases : (runTestSrc b t now0 rid sys).1.status = "pass" ∨
      (runTestSrc b t now0 rid sys).1.status = "fail" := by
    rw [runTestSrc_status]
    cases h : (runStepsSrc b t.target.url t.automation.steps 0 now0 []).2.2 with
    | none =>
        cases hp : t.automation.assertions.performance with
        | false => simp
        | true =>
            cases hm : (b.collectMetrics t.target.url).2 with
            | ok m => simp
            | error e => simp
    | some e => simp
  refine ⟨hcases, ?_, ?_, ?_⟩
  · rcases hcases with h | h <;> rw [h] <;> decide
  · intro e he
    constructor
    · rw [runTestSrc_status, he]
    · obtain ⟨sr, msg, hlast, hst, herr, hmsg⟩ :=
        runStepsSrc_thrown_last b t.target.url t.automation.steps 0 now0 [] e he
      exact ⟨sr, msg, by rw [runTestSrc_steps]; exact hlast, hst, herr, hmsg⟩
  · intro q em hp hnone hm
    rw [runTestSrc_status, hnone, hp]
    rw [hm]
    rfl

/-- Claim C5, witness: a concrete failing click step yields run status "fail"
with a last StepResult carrying the error text. -/
theorem c5_error_handling_inst :
    (runTestSrc failStepBehaviorSrc sampleClickTest 0 "rw"
        createInitialSystem).1.status = "fail" ∧
    ∃ sr msg,
      (runTestSrc failStepBehaviorSrc sampleClickTest 0 "rw"
          createInitialSystem).1.automationResults.steps.getLast? = some sr ∧
      sr.status = "fail" ∧ sr.error = some msg ∧
      "Step failed: Timeout waiting for selector" = "Step failed: " ++ msg := by
  exact (c5_error_handling failStepBehaviorSrc sampleClickTest 0 "rw"
    createInitialSystem).2.2.1 "Step failed: Timeout waiting for selector" (by decide)

/-- Claim C6, counterexample: after one passing run of the TypeScript source
copy from the fresh system, totalRuns is 1 but passRate is 0, not
(1/1)*100 — that copy never moves the test into the completed queue. -/
theorem c6_pass_rate_claim_false :
    (runTestSrc okBehaviorSrc sampleTest 0 "r6" createInitialSystem).1.status = "pass" ∧
    (analyticsOf (runTestSrc okBehaviorSrc sampleTest 0 "r6"
        createInitialSystem).2.1).totalRuns = 1 ∧
    (analyticsOf (runTestSrc okBehaviorSrc sampleTest 0 "r6"
        createInitialSystem).2.1).passRate = 0 ∧
    ¬((analyticsOf (runTestSrc okBehaviorSrc sampleTest 0 "r6"
        createInitialSystem).2.1).passRate = 1 / 1 * 100) := by
  have h2 : (analyticsOf (runTestSrc okBehaviorSrc sampleTest 0 "r6"
      createInitialSystem).2.1).totalRuns = 1 := by
    show (0 : ℚ) + 1 = 1
    norm_num
  have h3 : (analyticsOf (runTestSrc okBehaviorSrc sampleTest 0 "r6"
      createInitialSystem).2.1).passRate = 0 := by
    show ((List.length ([] : List Test) : ℚ)) / ((0 : ℚ) + 1) * 100 = 0
    norm_num
  refine ⟨rfl, h2, h3, ?_⟩
  rw [h3]
  norm_num

/-- Claim C6, amended: updateAnalytics always recomputes passRate as
(completed-queue length / new totalRuns) * 100; in the compiled copy, whose
finally phase moves each passing test into completed before updating
analytics, driving N tests from the fresh world yields totalRuns = N,
completed = the passing tests, and passRate = (P/N)*100 exactly; the
TypeScript source copy never moves tests into completed (see the
counterexample), so there P is not tracked. -/
theorem c6_pass_rate :
    ∀ (sys : TestingSystem) (r : TestResult) (b : Test → BehaviorJs) (ids : ℕ → String)
      (ts : List Test),
    ((analyticsOf (updateAnalytics sys r)).totalRuns = (analyticsOf sys).totalRuns + 1 ∧
     (analyticsOf (updateAnalytics sys r)).passRate
       = ((completedOf sys).length : ℚ) / ((analyticsOf sys).totalRuns + 1) * 100) ∧
    (ts ≠ [] →
      (analyticsOf (driveAllJs b ids ts 0 initWorld).1.sys).totalRuns = (ts.length : ℚ) ∧
      completedOf (driveAllJs b ids ts 0 initWorld).1.sys
        = ts.filter (fun t => passesJs (b t) t) ∧
      (analyticsOf (driveAllJs b ids ts 0 initWorld).1.sys).passRate
        = ((ts.filter (fun t => passesJs (b t) t)).length : ℚ) / (ts.length : ℚ) * 100) := by
  intro sys r b ids ts
  refine ⟨⟨rfl, rfl⟩, ?_⟩
  intro hts
  obtain ⟨_, _, _, _, _, hcomp, hruns, hrate, _, _, _⟩ :=
    driveAll_spec b ids ts 0 initWorld rfl rfl rfl rfl
  have hcomp0 : completedOf initWorld.sys = [] := rfl
  have hruns0 : (analyticsOf initWorld.sys).totalRuns = 0 := rfl
  have hcompleted : completedOf (driveAllJs b ids ts 0 initWorld).1.sys
      = ts.filter (fun t => passesJs (b t) t) := by
    rw [hcomp, hcomp0]; simp
  have htotal : (analyticsOf (driveAllJs b ids ts 0 initWorld).1.sys).totalRuns
      = (ts.length : ℚ) := by
    rw [hruns, hruns0]; ring
  refine ⟨htotal, hcompleted, ?_⟩
  rw [hrate hts, hcompleted, htotal]

/-- Claim C6, witness: one passing run through the compiled copy's driver
yields passRate exactly 100. -/
theorem c6_pass_rate_inst :
    (analyticsOf (driveAllJs (fun _ => okBehaviorJs) sampleIds [sampleTest] 0
        initWorld).1.sys).passRate = 100 := by
  have h := (c6_pass_rate createInitialSystem
    (resultForJs okBehaviorJs sampleTest "x") (fun _ => okBehaviorJs) sampleIds
    [sampleTest]).2 (by simp)
  rw [h.2.2]
  show ((1 : ℕ) : ℚ) / ((1 : ℕ) : ℚ) * 100 = 100
  norm_num

/-- Claim C7, counterexample: a body missing automation.assertions fails
validateTest and the TypeScript server rejects it with 400 and enqueues
nothing, but the compiled server's POST /test handler enqueues it anyway —
the claim fails against the compiled route. -/
theorem c7_validation_claim_false :
    validateTest bodyNoAssertions = false ∧
    (handlePostTestTs bodyNoAssertions "id-1").status = 400 ∧
    (handlePostTestTs bodyNoAssertions "id-1").enqueued = false ∧
    (handlePostTestJs bodyNoAssertions "id-1").enqueued = true := by
  exact ⟨rfl, rfl, rfl, rfl⟩

/-- Claim C7, amended: the TypeScript server rejects any body failing
validateTest — in particular one whose automation.assertions is missing or
not an object — with HTTP 400 and a structured error body, enqueuing
nothing; the compiled server copy performs no validation and enqueues every
body with a fresh id. -/
theorem c7_validation :
    ∀ (body : JVal) (rid : String),
    (truthyObj (jprop2 body "automation" "assertions") = false →
      validateTest body = false) ∧
    (validateTest body = false →
      handlePostTestTs body rid =
        { status := 400,
          body := .obj [("success", .bool false),
            ("error", .str "Invalid test data format. Please check the specification.")],
          enqueued := false }) ∧
    (handlePostTestJs body rid).enqueued = true := by
  intro body rid
  refine ⟨?_, ?_, rfl⟩
  · intro h
    simp [validateTest, h]
  · intro h
    simp [handlePostTestTs, h]

/-- Claim C8: writing a snapshot through the state store appends its
stringify image, and reading that image back yields the identical snapshot
(the save/load round trip of the single state file). -/
theorem c8_state_roundtrip :
    ∀ (w : World),
    (saveState w).saved = w.saved ++ [w.sys] ∧
    decSystem (encSystem w.sys) = some w.sys := by
  intro w
  refine ⟨rfl, ?_⟩
  cases hsys : w.sys with
  | mk o => simp [encSystem, decSystem, decOrchestrator_enc]

/-- Claim C9, counterexample: on the same test and equally successful
backends, the TypeScript copy returns the placeholder visual analysis
(accessibility 90) and leaves the phase "running", while the compiled copy
returns zeroed visual analysis (accessibility 0) and resets the phase to
"setup" — the two copies are not behavioural duplicates. -/
theorem c9_duplicate_claim_false :
    (runTestSrc okBehaviorSrc sampleTest 0 "r9c"
        midRunSys).1.visualAnalysis.metrics.accessibility = 90 ∧
    (resultForJs okBehaviorJs sampleTest
        (sampleIds 0)).visualAnalysis.metrics.accessibility = 0 ∧
    phaseOf (runTestSrc okBehaviorSrc sampleTest 0 "r9c" midRunSys).2.1 = "running" ∧
    phaseOf (runTestJs (fun _ => okBehaviorJs) sampleIds 0 sampleTest
        { sys := midRunSys, saved := [] }).1.sys = "setup" ∧
    completedOf (runTestSrc okBehaviorSrc sampleTest 0 "r9c" midRunSys).2.1 = [] ∧
    completedOf (runTestJs (fun _ => okBehaviorJs) sampleIds 0 sampleTest
        { sys := midRunSys, saved := [] }).1.sys = [sampleTest] := by
  exact ⟨rfl, rfl, rfl, rfl, rfl, rfl⟩

/-- Claim C9, amended: the compiled and TypeScript orchestrator copies are
not duplicates.  The TypeScript runTest leaves the whole testRunner (queues
included), the phase, the current test and the session results untouched and
always returns the placeholder visual analysis; the compiled runTest runs the
full finally phase — queue moves, phase reset, persistence and re-dequeue —
so the two produce different results and snapshots (see the counterexample).
-/
theorem c9_copies_differ :
    (∀ (b : BehaviorSrc) (t : Test) (now0 : ℚ) (rid : String) (sys : TestingSystem),
      (runTestSrc b t now0 rid sys).2.1.orchestrator.testRunner
        = sys.orchestrator.testRunner ∧
      phaseOf (runTestSrc b t now0 rid sys).2.1 = phaseOf sys ∧
      currentTestOf (runTestSrc b t now0 rid sys).2.1 = currentTestOf sys ∧
      resultsOf (runTestSrc b t now0 rid sys).2.1 = resultsOf sys ∧
      (runTestSrc b t now0 rid sys).1.visualAnalysis = placeholderVA) ∧
    (∀ (b : Test → BehaviorJs) (ids : ℕ → String) (k : ℕ) (t : Test) (w : World),
      runTestJs b ids k t w = processQueueJs b ids (k + 1) (runOneJs b ids k t w) ∧
      phaseOf (runOneJs b ids k t w).sys = "setup" ∧
      (runOneJs b ids k t w).saved = w.saved ++ [(runOneJs b ids k t w).sys]) ∧
    ((runTestSrc okBehaviorSrc sampleTest 0 "r9"
        midRunSys).1.visualAnalysis.metrics.accessibility = 90 ∧
     (resultForJs okBehaviorJs sampleTest
        (sampleIds 0)).visualAnalysis.metrics.accessibility = 0) := by
  refine ⟨?_, ?_, rfl, rfl⟩
  · intro b t now0 rid sys
    exact ⟨rfl, rfl, rfl, rfl, runTestSrc_visual b t now0 rid sys⟩
  · intro b ids k t w
    exact ⟨rfl, rfl, rfl⟩

/-- Claim C10: addScreenshot appends the screenshot to
state.current.screenshots, persists, and leaves every other component of the
snapshot — the whole testRunner with its four queue lists, the phase, the
current test, the session results and the history — unchanged. -/
theorem c10_addScreenshot_frame :
    ∀ (w : World) (s : Screenshot),
    screenshotsOf (addScreenshot w s).sys = screenshotsOf w.sys ++ [s] ∧
    (addScreenshot w s).sys.orchestrator.testRunner = w.sys.orchestrator.testRunner ∧
    phaseOf (addScreenshot w s).sys = phaseOf w.sys ∧
    currentTestOf (addScreenshot w s).sys = currentTestOf w.sys ∧
    resultsOf (addScreenshot w s).sys = resultsOf w.sys ∧
    historyOf (addScreenshot w s).sys = historyOf w.sys ∧
    (addScreenshot w s).saved = w.saved ++ [(addScreenshot w s).sys] := by
  intro w s
  exact ⟨rfl, rfl, rfl, rfl, rfl, rfl, rfl⟩

end FrontendAgent
